import Mathlib

/-!
Shallow embedding of the streakling-backend core: the Clerk identity bridge
(`userService.ts`), the owned-resource controllers
(`digitalNameCardController.ts`, `challengeController.ts`,
`portfolioController.ts`, `profileController.ts`) and the Stripe billing
reconciliation (`billingController.ts`).  The database is modelled as lists
of rows; each controller becomes a pure function from a request plus a store
to a result plus a new store.  JavaScript `null`/`undefined` on string
columns is modelled as `Option String`, and JavaScript truthiness of a
nullable string (`null`, `undefined` and `""` are falsy) as `jsTruthy`.
-/

namespace Streakling

/-- JavaScript truthiness of a nullable string: `null`/`undefined` and the
empty string are falsy. -/
def jsTruthy : Option String → Bool
  | none => false
  | some s => s != ""

/-- JavaScript `String.prototype.trim()`: strip leading and trailing
whitespace (modelled character-wise so it is kernel-executable). -/
def jsTrim (s : String) : String :=
  String.mk
    (((s.toList.dropWhile (fun c => c.isWhitespace)).reverse.dropWhile
      (fun c => c.isWhitespace)).reverse)

/-- Outcome of a request, mirroring `responseHandler.ts`
(`sendSuccess` 2xx, `sendUnauthorized` 401, `sendForbidden` 403,
`sendNotFound` 404, `sendConflict` 409, `sendBadRequest` 400,
`sendError` 500). -/
inductive ApiResult where
  | success
  | unauthorized
  | forbidden
  | notFound
  | conflict
  | badRequest
  | error
deriving DecidableEq, Repr

/-! ## Identity bridge (`src/services/userService.ts`) -/

/-- The Prisma `User` row.  Profile, visibility and billing columns are all
on this one model, as in the Prisma schema used by the controllers. -/
structure User where
  id : String
  clerkId : String
  username : Option String := none
  email : Option String := none
  displayName : String := "User"
  avatarUrl : Option String := none
  avatarKey : Option String := none
  bannerKey : Option String := none
  country : Option String := none
  phone : Option String := none
  religion : Option String := none
  dateOfBirth : Option Nat := none
  role : String := "USER"
  showEmail : Bool := false
  showReligion : Bool := false
  showDateOfBirth : Bool := false
  showPhone : Bool := false
  showCountry : Bool := false
  industries : List (String × String) := []
  stripeCustomerId : Option String := none
  plan : Option String := none
  subscriptionStatus : Option String := none
  currentPeriodEnd : Option Nat := none
deriving DecidableEq, Repr

/-- Input of `upsertUserFromClerk`: the verified Clerk id plus best-effort
profile claims (`username`, `email`, `avatarUrl`, and the caller-supplied
sensitive fields), with `displayName` required. -/
structure ClerkInput where
  clerkId : String
  username : Option String := none
  email : Option String := none
  displayName : String
  avatarUrl : Option String := none
  country : Option String := none
  phone : Option String := none
  religion : Option String := none
deriving DecidableEq, Repr

/-- First-login branch of `upsertUserFromClerk`: create a minimal row.
`input.username ?? undefined` sets the column exactly when a value is
present; `input.displayName || 'User'` falls back on the empty string. -/
def createUserFromClerk (newId : String) (input : ClerkInput) : User :=
  { id := newId
    clerkId := input.clerkId
    username := input.username
    email := input.email
    displayName := if input.displayName == "" then "User" else input.displayName
    avatarUrl := input.avatarUrl
    country := input.country
    phone := input.phone
    religion := input.religion }

/-- Subsequent-login branch of `upsertUserFromClerk`: refresh the
Clerk-owned columns (`email`, `displayName`, `avatarUrl`) with
`input.x ?? undefined` (a `null`/absent incoming value leaves the column
alone, any present string — including `""` — is written), then apply the
fill-once guards `if (!existing.x && input.x) data.x = input.x` for
`username`, `country`, `phone`, `religion`. -/
def updateUserFromClerk (existing : User) (input : ClerkInput) : User :=
  let base :=
    { existing with
        email := match input.email with
          | none => existing.email
          | some s => some s
        displayName := input.displayName
        avatarUrl := match input.avatarUrl with
          | none => existing.avatarUrl
          | some s => some s }
  { base with
      username :=
        if !(jsTruthy existing.username) && jsTruthy input.username then
          input.username
        else base.username
      country :=
        if !(jsTruthy existing.country) && jsTruthy input.country then
          input.country
        else base.country
      phone :=
        if !(jsTruthy existing.phone) && jsTruthy input.phone then
          input.phone
        else base.phone
      religion :=
        if !(jsTruthy existing.religion) && jsTruthy input.religion then
          input.religion
        else base.religion }

/-- `upsertUserFromClerk` over a user table: look the Clerk id up with
`findUnique`, then either create (first login) or update (subsequent
login).  Returns the resulting row and the new table. -/
def upsertUserFromClerk (users : List User) (newId : String)
    (input : ClerkInput) : User × List User :=
  match users.find? (fun u => u.clerkId == input.clerkId) with
  | none =>
      let u := createUserFromClerk newId input
      (u, users ++ [u])
  | some existing =>
      let u := updateUserFromClerk existing input
      (u, users.map (fun v => if v.id == existing.id then u else v))

/-! ## Publish status and `publishedAt` transitions -/

/-- Publish status enum.  The digital-name-card and portfolio Zod schemas
allow `DRAFT | PRIVATE | PUBLISHED`. -/
inductive PublishStatus where
  | DRAFT
  | PRIVATE
  | PUBLISHED
deriving DecidableEq, Repr

/-- `updateCard` step 4 (`digitalNameCardController.ts`):
`patch.publishStatus === 'PUBLISHED' && !card.publishedAt ? new Date()
 : patch.publishStatus === 'DRAFT' ? null : card.publishedAt`. -/
def cardNextPublishedAt (patchStatus : Option PublishStatus)
    (current : Option Nat) (now : Nat) : Option Nat :=
  if patchStatus = some .PUBLISHED ∧ current = none then some now
  else if patchStatus = some .DRAFT then none
  else current

/-- `updateChallenge` (`challengeController.ts`): when a `publishStatus` is
in the patch, entering `PUBLISHED` with no timestamp stamps now, any other
incoming status clears to null; otherwise the column is untouched. -/
def challengeNextPublishedAt (patchStatus : Option PublishStatus)
    (current : Option Nat) (now : Nat) : Option Nat :=
  match patchStatus with
  | none => current
  | some .PUBLISHED => if current = none then some now else current
  | some _ => none

/-- `updatePortfolio` (`portfolioController.ts`): same transition as the
challenge controller ("clear if moving back to draft/private"). -/
def portfolioNextPublishedAt (patchStatus : Option PublishStatus)
    (current : Option Nat) (now : Nat) : Option Nat :=
  match patchStatus with
  | none => current
  | some .PUBLISHED => if current = none then some now else current
  | some _ => none

/-! ## Digital name cards (`src/controllers/digitalNameCardController.ts`) -/

/-- A `SocialAccount` row attached to a card (relation modelled inline). -/
structure SocialRow where
  socialPlatform : String
  handle : Option String := none
  url : Option String := none
  label : Option String := none
  isPublic : Bool := true
  sortOrder : Nat := 0
deriving DecidableEq, Repr

/-- A social entry as sent by the client: `isPublic` and `sortOrder` are
optional and the controller defaults them
(`typeof s.isPublic === 'boolean' ? s.isPublic : true`,
`typeof s.sortOrder === 'number' ? s.sortOrder : 0`). -/
structure SocialInput where
  socialPlatform : String
  handle : Option String := none
  url : Option String := none
  label : Option String := none
  isPublic : Option Bool := none
  sortOrder : Option Nat := none
deriving DecidableEq, Repr

/-- Defaulting applied by `createCard` / `updateCard` when writing a
social row. -/
def resolveSocial (s : SocialInput) : SocialRow :=
  { socialPlatform := s.socialPlatform
    handle := s.handle
    url := s.url
    label := s.label
    isPublic := s.isPublic.getD true
    sortOrder := s.sortOrder.getD 0 }

/-- The `DigitalNameCard` row. -/
structure Card where
  id : String
  userId : String
  slug : String
  firstName : String := ""
  lastName : String := ""
  appName : String := ""
  cardStatus : String := "STUDENT"
  cardRole : String := ""
  shortBio : String := ""
  company : Option String := none
  university : Option String := none
  country : Option String := none
  religion : Option String := none
  phone : Option String := none
  avatarKey : Option String := none
  bannerKey : Option String := none
  showPhone : Bool := false
  showReligion : Bool := false
  showCompany : Bool := true
  showUniversity : Bool := true
  showCountry : Bool := true
  publishStatus : PublishStatus := .DRAFT
  publishedAt : Option Nat := none
  socials : List SocialRow := []
deriving DecidableEq, Repr

/-- Payload of `POST /api/digital-name-cards` after Zod validation
(`createDigitalCardSchema`): the slug is caller-chosen and required. -/
structure CreateCardInput where
  slug : String
  firstName : String := ""
  lastName : String := ""
  appName : String := ""
  cardStatus : String := "STUDENT"
  cardRole : String := ""
  shortBio : String := ""
  company : Option String := none
  university : Option String := none
  country : Option String := none
  religion : Option String := none
  phone : Option String := none
  avatarKey : Option String := none
  bannerKey : Option String := none
  showPhone : Bool := false
  showReligion : Bool := false
  showCompany : Bool := true
  showUniversity : Bool := true
  showCountry : Bool := true
  publishStatus : PublishStatus := .DRAFT
  socials : List SocialInput := []
deriving DecidableEq, Repr

/-- Patch of `PATCH /api/digital-name-cards/:id` after Zod validation
(`updateDigitalCardSchema = createDigitalCardSchema.partial()`): every
field is optional; an absent field leaves the column untouched. -/
structure UpdateCardInput where
  slug : Option String := none
  firstName : Option String := none
  lastName : Option String := none
  appName : Option String := none
  cardStatus : Option String := none
  cardRole : Option String := none
  shortBio : Option String := none
  company : Option String := none
  university : Option String := none
  country : Option String := none
  religion : Option String := none
  phone : Option String := none
  avatarKey : Option String := none
  bannerKey : Option String := none
  showPhone : Option Bool := none
  showReligion : Option Bool := none
  showCompany : Option Bool := none
  showUniversity : Option Bool := none
  showCountry : Option Bool := none
  publishStatus : Option PublishStatus := none
  socials : Option (List SocialInput) := none
deriving DecidableEq, Repr

/-- The row written by `createCard` on success: the caller-chosen slug is
used exactly as given, `publishedAt` is stamped when created as
`PUBLISHED`, and the socials are created alongside. -/
def newCardRow (uid : String) (input : CreateCardInput) (newId : String)
    (now : Nat) : Card :=
  { id := newId
    userId := uid
    slug := input.slug
    firstName := input.firstName
    lastName := input.lastName
    appName := input.appName
    cardStatus := input.cardStatus
    cardRole := input.cardRole
    shortBio := input.shortBio
    company := input.company
    university := input.university
    country := input.country
    religion := input.religion
    phone := input.phone
    avatarKey := input.avatarKey
    bannerKey := input.bannerKey
    showPhone := input.showPhone
    showReligion := input.showReligion
    showCompany := input.showCompany
    showUniversity := input.showUniversity
    showCountry := input.showCountry
    publishStatus := input.publishStatus
    publishedAt :=
      if input.publishStatus = .PUBLISHED then some now else none
    socials := input.socials.map resolveSocial }

/-- `createCard`: global vanity-slug uniqueness probe
(`findUnique({ where: { slug } })`, 409 on hit — the slug is used exactly
as given, never suffixed), then create the row together with its
socials. -/
def createCard (cards : List Card) (uid : Option String)
    (input : CreateCardInput) (newId : String) (now : Nat) :
    ApiResult × List Card :=
  match uid with
  | none => (.unauthorized, cards)
  | some uid =>
      if (cards.find? (fun c => c.slug == input.slug)).isSome then
        (.conflict, cards)
      else
        (.success, cards ++ [newCardRow uid input newId now])

/-- `getMyCardById`: `findUnique` by id, then
`if (!card || card.userId !== req.user.uid) return sendNotFound(...)`. -/
def getMyCardByIdRes (cards : List Card) (uid : Option String)
    (id : String) : ApiResult :=
  match uid with
  | none => .unauthorized
  | some uid =>
      match cards.find? (fun c => c.id == id) with
      | none => .notFound
      | some card => if card.userId != uid then .notFound else .success

/-- `updateCard` as one transaction: load + ownership check (404 merged),
slug-uniqueness check when the slug changes (409), apply the scalar patch
with the `publishedAt` transition, and fully replace the socials when the
patch carries a `socials` array.  A thrown `NOT_FOUND` / `SLUG_EXISTS`
aborts the transaction, leaving the store untouched. -/
def updateCard (cards : List Card) (uid : Option String) (id : String)
    (patch : UpdateCardInput) (now : Nat) : ApiResult × List Card :=
  match uid with
  | none => (.unauthorized, cards)
  | some uid =>
      match cards.find? (fun c => c.id == id) with
      | none => (.notFound, cards)
      | some card =>
          let slugConflict : Bool :=
            match patch.slug with
            | some s =>
                s != card.slug && (cards.find? (fun c => c.slug == s)).isSome
            | none => false
          if card.userId != uid then (.notFound, cards)
          else if slugConflict then
            (.conflict, cards)
          else
            let updated : Card :=
              { card with
                  slug := patch.slug.getD card.slug
                  firstName := patch.firstName.getD card.firstName
                  lastName := patch.lastName.getD card.lastName
                  appName := patch.appName.getD card.appName
                  cardStatus := patch.cardStatus.getD card.cardStatus
                  cardRole := patch.cardRole.getD card.cardRole
                  shortBio := patch.shortBio.getD card.shortBio
                  company := patch.company.orElse (fun _ => card.company)
                  university :=
                    patch.university.orElse (fun _ => card.university)
                  country := patch.country.orElse (fun _ => card.country)
                  religion := patch.religion.orElse (fun _ => card.religion)
                  phone := patch.phone.orElse (fun _ => card.phone)
                  avatarKey := patch.avatarKey.orElse (fun _ => card.avatarKey)
                  bannerKey := patch.bannerKey.orElse (fun _ => card.bannerKey)
                  showPhone := patch.showPhone.getD card.showPhone
                  showReligion := patch.showReligion.getD card.showReligion
                  showCompany := patch.showCompany.getD card.showCompany
                  showUniversity :=
                    patch.showUniversity.getD card.showUniversity
                  showCountry := patch.showCountry.getD card.showCountry
                  publishStatus := patch.publishStatus.getD card.publishStatus
                  publishedAt :=
                    cardNextPublishedAt patch.publishStatus card.publishedAt now
                  socials := match patch.socials with
                    | none => card.socials
                    | some l => l.map resolveSocial }
            (.success,
              cards.map (fun c => if c.id == id then updated else c))

/-- `deleteCard`: ownership check inside the transaction (404 merged),
then delete the socials and the card. -/
def deleteCard (cards : List Card) (uid : Option String) (id : String) :
    ApiResult × List Card :=
  match uid with
  | none => (.unauthorized, cards)
  | some uid =>
      match cards.find? (fun c => c.id == id) with
      | none => (.notFound, cards)
      | some card =>
          if card.userId != uid then (.notFound, cards)
          else (.success, cards.filter (fun c => c.id != id))

/-! ## Serialization and visibility (`serializeCard`, `serializeProfile`) -/

/-- Insertion of a social into a list sorted by ascending `sortOrder`,
modelling `sort((a, b) => a.sortOrder - b.sortOrder)`. -/
def insertBySortOrder (s : SocialRow) : List SocialRow → List SocialRow
  | [] => [s]
  | t :: ts =>
      if s.sortOrder ≤ t.sortOrder then s :: t :: ts
      else t :: insertBySortOrder s ts

/-- Ascending sort by `sortOrder` used by `serializeCard` on socials. -/
def sortBySortOrder (l : List SocialRow) : List SocialRow :=
  l.foldr insertBySortOrder []

/-- The owner/public serialization of a card.  The visibility flags are
part of the output in both views; only the sensitive values are gated. -/
structure CardView where
  id : String
  userId : String
  slug : String
  firstName : String
  lastName : String
  appName : String
  cardStatus : String
  cardRole : String
  shortBio : String
  avatarKey : Option String
  bannerKey : Option String
  publishStatus : PublishStatus
  publishedAt : Option Nat
  showPhone : Bool
  showReligion : Bool
  showCompany : Bool
  showUniversity : Bool
  showCountry : Bool
  phone : Option String
  religion : Option String
  company : Option String
  university : Option String
  country : Option String
  socials : List SocialRow
deriving DecidableEq, Repr

/-- `serializeCard(card, { isOwner })`: owners see every sensitive value
and every social; the public view nulls each sensitive value whose flag is
off and keeps only `isPublic` socials. -/
def serializeCard (card : Card) (isOwner : Bool) : CardView :=
  { id := card.id
    userId := card.userId
    slug := card.slug
    firstName := card.firstName
    lastName := card.lastName
    appName := card.appName
    cardStatus := card.cardStatus
    cardRole := card.cardRole
    shortBio := card.shortBio
    avatarKey := card.avatarKey
    bannerKey := card.bannerKey
    publishStatus := card.publishStatus
    publishedAt := card.publishedAt
    showPhone := card.showPhone
    showReligion := card.showReligion
    showCompany := card.showCompany
    showUniversity := card.showUniversity
    showCountry := card.showCountry
    phone := if isOwner then card.phone
      else if card.showPhone then card.phone else none
    religion := if isOwner then card.religion
      else if card.showReligion then card.religion else none
    company := if isOwner then card.company
      else if card.showCompany then card.company else none
    university := if isOwner then card.university
      else if card.showUniversity then card.university else none
    country := if isOwner then card.country
      else if card.showCountry then card.country else none
    socials := if isOwner then sortBySortOrder card.socials
      else sortBySortOrder (card.socials.filter (fun s => s.isPublic)) }

/-- `toYMD`: date-only projection of a stored timestamp (milliseconds to
calendar day), `null` passing through. -/
def toYMD (d : Option Nat) : Option Nat :=
  d.map (fun ms => ms / 86400000)

/-- The owner/public serialization of a profile (`serializeProfile`).
`role` is only exposed to the owner. -/
structure ProfileView where
  id : String
  username : Option String
  displayName : String
  avatarKey : Option String
  avatarUrl : Option String
  bannerKey : Option String
  industries : List (String × String)
  showEmail : Bool
  showReligion : Bool
  showDateOfBirth : Bool
  showPhone : Bool
  showCountry : Bool
  isOwner : Bool
  profileRole : Option String
  email : Option String
  country : Option String
  religion : Option String
  dateOfBirth : Option Nat
  phone : Option String
deriving DecidableEq, Repr

/-- `serializeProfile(u, { isOwner })`: flags and base identity are in both
views; the owner additionally sees `role` and every sensitive value; the
public view gates each sensitive value on its flag. -/
def serializeProfile (u : User) (isOwner : Bool) : ProfileView :=
  { id := u.id
    username := u.username
    displayName := u.displayName
    avatarKey := u.avatarKey
    avatarUrl := u.avatarUrl
    bannerKey := u.bannerKey
    industries := u.industries
    showEmail := u.showEmail
    showReligion := u.showReligion
    showDateOfBirth := u.showDateOfBirth
    showPhone := u.showPhone
    showCountry := u.showCountry
    isOwner := isOwner
    profileRole := if isOwner then some u.role else none
    email := if isOwner then u.email
      else if u.showEmail then u.email else none
    country := if isOwner then u.country
      else if u.showCountry then u.country else none
    religion := if isOwner then u.religion
      else if u.showReligion then u.religion else none
    dateOfBirth := if isOwner then toYMD u.dateOfBirth
      else if u.showDateOfBirth then toYMD u.dateOfBirth else none
    phone := if isOwner then u.phone
      else if u.showPhone then u.phone else none }

/-! ## Challenges (`src/controllers/challengeController.ts`) -/

/-- A character kept verbatim by `slugify` (the regex class `[a-z0-9]`). -/
def slugChar (c : Char) : Bool :=
  c.isLower || c.isDigit

/-- Replace every run of characters outside `[a-z0-9]` by a single hyphen
(the regex `replace(/[^a-z0-9]+/g, '-')`). -/
def slugifyCore : List Char → Bool → List Char
  | [], _ => []
  | c :: cs, lastHyphen =>
      if slugChar c then c :: slugifyCore cs false
      else if lastHyphen then slugifyCore cs true
      else '-' :: slugifyCore cs true

/-- Strip leading and trailing hyphens (the regex `replace(/(^-|-$)+/g, '')`). -/
def stripHyphens (l : List Char) : List Char :=
  ((l.dropWhile (fun c => c == '-')).reverse.dropWhile (fun c => c == '-')).reverse

/-- `slugify`: lowercase, trim, collapse non-alphanumeric runs to single
hyphens, strip outer hyphens. -/
def slugify (input : String) : String :=
  String.mk (stripHyphens (slugifyCore input.toLower.trim.toList false))

/-- A `ChallengePrize` row. -/
structure Prize where
  rank : Nat
  label : Option String := none
  amountCents : Option Nat := none
  notes : Option String := none
deriving DecidableEq, Repr

/-- An image row (challenge images and portfolio sub-images share this
shape: storage key, URL, sort order). -/
structure ImageRow where
  key : String
  url : String
  sortOrder : Nat := 0
deriving DecidableEq, Repr

/-- An image as sent by the client: `sortOrder` optional, defaulted with
`i.sortOrder ?? 0` by the controllers. -/
structure ImageInput where
  key : String
  url : String
  sortOrder : Option Nat := none
deriving DecidableEq, Repr

/-- `i.sortOrder ?? 0` applied when an image row is written. -/
def resolveImage (i : ImageInput) : ImageRow :=
  { key := i.key, url := i.url, sortOrder := i.sortOrder.getD 0 }

/-- The `Challenge` row, carrying the per-challenge submission counter
`nextSubmissionOrder`. -/
structure Challenge where
  id : String
  userId : String
  slug : String
  title : String
  description : Option String := none
  brandName : Option String := none
  brandLogoKey : Option String := none
  postingUrl : Option String := none
  targetPlatforms : List String := []
  goalViews : Option Nat := none
  goalLikes : Option Nat := none
  deadline : Option Nat := none
  publishStatus : PublishStatus := .DRAFT
  publishedAt : Option Nat := none
  chStatus : String := "OPEN"
  nextSubmissionOrder : Nat := 0
  prizes : List Prize := []
  images : List ImageRow := []
  createdAt : Nat := 0
deriving DecidableEq, Repr

/-- `ensureUniqueChallengeSlug` probe loop: test the candidate, then
`base-1`, `base-2`, … until a free slug is found.  The loop is expressed
with explicit fuel (the store is finite, so `length + 1` probes always
suffice; fuel exhaustion returns the current candidate). -/
def slugProbe (taken : String → Bool) (base : String) :
    Nat → String → Nat → String
  | suffix, candidate, fuel =>
      match fuel with
      | 0 => candidate
      | fuel + 1 =>
          if taken candidate then
            slugProbe taken base (suffix + 1)
              (base ++ "-" ++ toString (suffix + 1)) fuel
          else candidate

/-- `ensureUniqueChallengeSlug(base)`: starting from `base` (or the fixed
fallback `'challenge'` when empty), probe the challenge table for a free
slug. -/
def ensureUniqueChallengeSlug (challenges : List Challenge) (base : String) :
    String :=
  slugProbe (fun s => (challenges.find? (fun c => c.slug == s)).isSome) base
    0 (if base == "" then "challenge" else base) (challenges.length + 1)

/-- Payload of `POST /challenges` after Zod validation. -/
structure CreateChallengeInput where
  slug : Option String := none
  title : String
  description : Option String := none
  brandName : Option String := none
  brandLogoKey : Option String := none
  postingUrl : Option String := none
  targetPlatforms : Option (List String) := none
  goalViews : Option Nat := none
  goalLikes : Option Nat := none
  deadline : Option Nat := none
  publishStatus : Option PublishStatus := none
  chStatus : Option String := none
  prizes : Option (List Prize) := none
  images : Option (List ImageInput) := none
deriving DecidableEq, Repr

/-- Patch of `PATCH /challenges/:id` after Zod validation (all optional). -/
structure UpdateChallengeInput where
  slug : Option String := none
  title : Option String := none
  description : Option String := none
  brandName : Option String := none
  brandLogoKey : Option String := none
  postingUrl : Option String := none
  targetPlatforms : Option (List String) := none
  goalViews : Option Nat := none
  goalLikes : Option Nat := none
  deadline : Option Nat := none
  publishStatus : Option PublishStatus := none
  chStatus : Option String := none
  prizes : Option (List Prize) := none
  images : Option (List ImageInput) := none
deriving DecidableEq, Repr

/-- The row written by `createChallenge`: slug allocated from the
explicit candidate or the title, only the first 6 images kept
(`slice(0, 6)`), `publishedAt` stamped when created as `PUBLISHED`,
`status` defaulted to `OPEN`. -/
def newChallengeRow (challenges : List Challenge) (uid : String)
    (payload : CreateChallengeInput) (newId : String) (now : Nat) :
    Challenge :=
  let titleBase := if payload.title == "" then "challenge" else payload.title
  let baseSlug :=
    match payload.slug with
    | some s => if s != "" then slugify s else slugify titleBase
    | none => slugify titleBase
  let slug := ensureUniqueChallengeSlug challenges baseSlug
  let isPublishing := payload.publishStatus = some .PUBLISHED
  let images := (payload.images.getD []).take 6
  { id := newId
    userId := uid
    slug := slug
    title := payload.title
    description := payload.description
    brandName := payload.brandName
    brandLogoKey := payload.brandLogoKey
    postingUrl := payload.postingUrl
    targetPlatforms := payload.targetPlatforms.getD []
    goalViews := payload.goalViews
    goalLikes := payload.goalLikes
    deadline := payload.deadline
    publishStatus := payload.publishStatus.getD .DRAFT
    publishedAt := if isPublishing then some now else none
    chStatus := payload.chStatus.getD "OPEN"
    nextSubmissionOrder := 0
    prizes := payload.prizes.getD []
    images := images.map resolveImage
    createdAt := now }

/-- `createChallenge`: auth guard, then insert the new row. -/
def createChallenge (challenges : List Challenge) (uid : Option String)
    (payload : CreateChallengeInput) (newId : String) (now : Nat) :
    ApiResult × List Challenge :=
  match uid with
  | none => (.unauthorized, challenges)
  | some uid => (.success, challenges ++ [newChallengeRow challenges uid payload newId now])

/-- `getMyChallengeById`: `findFirst({ where: { id, userId } })`, 404 when
absent or owned by someone else. -/
def getMyChallengeByIdRes (challenges : List Challenge) (uid : Option String)
    (id : String) : ApiResult :=
  match uid with
  | none => .unauthorized
  | some uid =>
      match challenges.find? (fun c => c.id == id && c.userId == uid) with
      | none => .notFound
      | some _ => .success

/-- The row produced by `updateChallenge` on success: slug re-allocation
when a different non-empty slug is supplied, `publishedAt` transition,
full replacement of prizes/images when present — with images again capped
at the first 6 (`body.images.slice(0, 6)`). -/
def updatedChallengeRow (challenges : List Challenge) (existing : Challenge)
    (body : UpdateChallengeInput) (now : Nat) : Challenge :=
  let slugUpdate : Option String :=
    match body.slug with
    | some s =>
        if s != "" && s != existing.slug then
          some (ensureUniqueChallengeSlug challenges (slugify s))
        else none
    | none => none
  let images := body.images.map (fun l => l.take 6)
  { existing with
      slug := slugUpdate.getD existing.slug
      title := body.title.getD existing.title
      description := body.description.orElse (fun _ => existing.description)
      brandName := body.brandName.orElse (fun _ => existing.brandName)
      brandLogoKey :=
        body.brandLogoKey.orElse (fun _ => existing.brandLogoKey)
      postingUrl := body.postingUrl.orElse (fun _ => existing.postingUrl)
      targetPlatforms := body.targetPlatforms.getD existing.targetPlatforms
      goalViews := body.goalViews.orElse (fun _ => existing.goalViews)
      goalLikes := body.goalLikes.orElse (fun _ => existing.goalLikes)
      deadline := body.deadline.orElse (fun _ => existing.deadline)
      publishStatus := body.publishStatus.getD existing.publishStatus
      publishedAt :=
        challengeNextPublishedAt body.publishStatus existing.publishedAt now
      chStatus := body.chStatus.getD existing.chStatus
      prizes := match body.prizes with
        | none => existing.prizes
        | some l => l
      images := match images with
        | none => existing.images
        | some l => l.map resolveImage }

/-- `updateChallenge`: auth guard, ownership-scoped lookup (404 merged),
then write the updated row. -/
def updateChallenge (challenges : List Challenge) (uid : Option String)
    (id : String) (body : UpdateChallengeInput) (now : Nat) :
    ApiResult × List Challenge :=
  match uid with
  | none => (.unauthorized, challenges)
  | some uid =>
      match challenges.find? (fun c => c.id == id && c.userId == uid) with
      | none => (.notFound, challenges)
      | some existing =>
          (.success,
            challenges.map (fun c =>
              if c.id == id then
                updatedChallengeRow challenges existing body now
              else c))

/-- `deleteChallenge`: ownership-scoped lookup (404 merged), then delete
the row (child rows cascade at the store level). -/
def deleteChallenge (challenges : List Challenge) (uid : Option String)
    (id : String) : ApiResult × List Challenge :=
  match uid with
  | none => (.unauthorized, challenges)
  | some uid =>
      match challenges.find? (fun c => c.id == id && c.userId == uid) with
      | none => (.notFound, challenges)
      | some _ => (.success, challenges.filter (fun c => c.id != id))

/-! ## Portfolios (`src/controllers/portfolioController.ts`) -/

/-- A portfolio/project video link. -/
structure VideoLink where
  vlPlatform : String
  url : String
  description : Option String := none
deriving DecidableEq, Repr

/-- A portfolio sub-project with its own child collections. -/
structure Project where
  title : String
  description : Option String := none
  mainImageKey : Option String := none
  tags : List String := []
  subImages : List ImageRow := []
  videoLinks : List VideoLink := []
deriving DecidableEq, Repr

/-- The `Portfolio` row. -/
structure Portfolio where
  id : String
  userId : String
  slug : String
  title : String
  description : Option String := none
  mainImageKey : Option String := none
  tags : List String := []
  publishStatus : PublishStatus := .DRAFT
  publishedAt : Option Nat := none
  subImages : List ImageRow := []
  videoLinks : List VideoLink := []
  projects : List Project := []
deriving DecidableEq, Repr

/-- A project as sent by the client (nested collections optional). -/
structure ProjectInput where
  title : String
  description : Option String := none
  mainImageKey : Option String := none
  tags : Option (List String) := none
  subImages : Option (List ImageInput) := none
  videoLinks : Option (List VideoLink) := none
deriving DecidableEq, Repr

/-- Defaulting applied when a project row is written
(`tags: pr.tags ?? []`, nested creates when present). -/
def resolveProject (pr : ProjectInput) : Project :=
  { title := pr.title
    description := pr.description
    mainImageKey := pr.mainImageKey
    tags := pr.tags.getD []
    subImages := (pr.subImages.getD []).map resolveImage
    videoLinks := pr.videoLinks.getD [] }

/-- Patch of `PATCH /portfolios/:id` after Zod validation
(`updatePortfolioSchema = createPortfolioSchema.partial()`). -/
structure UpdatePortfolioInput where
  slug : Option String := none
  title : Option String := none
  description : Option String := none
  mainImageKey : Option String := none
  tags : Option (List String) := none
  subImages : Option (List ImageInput) := none
  videoLinks : Option (List VideoLink) := none
  projects : Option (List ProjectInput) := none
  publishStatus : Option PublishStatus := none
deriving DecidableEq, Repr

/-- `ensureUniqueSlug(base)` for portfolios: fallback base `'portfolio'`,
then the same probe loop as for challenges. -/
def ensureUniquePortfolioSlug (ports : List Portfolio) (base : String) :
    String :=
  slugProbe (fun s => (ports.find? (fun p => p.slug == s)).isSome) base
    0 (if base == "" then "portfolio" else base) (ports.length + 1)

/-- `getMyPortfolioById`: `findFirst({ where: { id, userId } })`, 404 when
absent or owned by someone else. -/
def getMyPortfolioByIdRes (ports : List Portfolio) (uid : Option String)
    (id : String) : ApiResult :=
  match uid with
  | none => .unauthorized
  | some uid =>
      match ports.find? (fun p => p.id == id && p.userId == uid) with
      | none => .notFound
      | some _ => .success

/-- `updatePortfolio`: missing-id guard, ownership-scoped lookup (404
merged), slug re-allocation when a different non-empty slug is supplied
(no slugification on update), `publishedAt` transition, and full
replacement of each child collection present in the patch. -/
def updatePortfolio (ports : List Portfolio) (uid : Option String)
    (id : String) (body : UpdatePortfolioInput) (now : Nat) :
    ApiResult × List Portfolio :=
  match uid with
  | none => (.unauthorized, ports)
  | some uid =>
      if id == "" then (.notFound, ports)
      else
        match ports.find? (fun p => p.id == id && p.userId == uid) with
        | none => (.notFound, ports)
        | some existing =>
            let slugUpdate : Option String :=
              match body.slug with
              | some s =>
                  if s != "" && s != existing.slug then
                    some (ensureUniquePortfolioSlug ports s)
                  else none
              | none => none
            let updated : Portfolio :=
              { existing with
                  slug := slugUpdate.getD existing.slug
                  title := body.title.getD existing.title
                  description :=
                    body.description.orElse (fun _ => existing.description)
                  mainImageKey :=
                    body.mainImageKey.orElse (fun _ => existing.mainImageKey)
                  tags := body.tags.getD existing.tags
                  publishStatus :=
                    body.publishStatus.getD existing.publishStatus
                  publishedAt :=
                    portfolioNextPublishedAt body.publishStatus
                      existing.publishedAt now
                  subImages := match body.subImages with
                    | none => existing.subImages
                    | some l => l.map resolveImage
                  videoLinks := match body.videoLinks with
                    | none => existing.videoLinks
                    | some l => l
                  projects := match body.projects with
                    | none => existing.projects
                    | some l => l.map resolveProject }
            (.success, ports.map (fun p => if p.id == id then updated else p))

/-- `deletePortfolio`: ownership-scoped lookup (404 merged), then delete
the row (children cascade). -/
def deletePortfolio (ports : List Portfolio) (uid : Option String)
    (id : String) : ApiResult × List Portfolio :=
  match uid with
  | none => (.unauthorized, ports)
  | some uid =>
      match ports.find? (fun p => p.id == id && p.userId == uid) with
      | none => (.notFound, ports)
      | some _ => (.success, ports.filter (fun p => p.id != id))

/-! ## Subscriptions table and the combined store -/

/-- The local `Subscription` row, keyed by the Stripe subscription id. -/
structure SubscriptionRow where
  stripeSubId : String
  userId : String
  stripePriceId : String
  subStatus : String
  currentPeriodEnd : Nat
deriving DecidableEq, Repr

/-- A `ChallengeSubmission` row, with the denormalized submitter snapshot
captured at submission time. -/
structure SnapSocial where
  socialPlatform : String
  handle : Option String := none
  url : Option String := none
  label : Option String := none
deriving DecidableEq, Repr

structure SubmissionRow where
  id : String
  challengeId : String
  submitterId : String
  subPlatform : String
  linkUrl : Option String := none
  imageKey : Option String := none
  notes : Option String := none
  submissionOrder : Nat
  submitterName : Option String := none
  submitterPhone : Option String := none
  submitterSocials : List SnapSocial := []
  modStatus : String := "PENDING"
deriving DecidableEq, Repr

/-- The transactional store: one list per Prisma model used by the core. -/
structure Db where
  users : List User := []
  cards : List Card := []
  challenges : List Challenge := []
  submissions : List SubmissionRow := []
  portfolios : List Portfolio := []
  subscriptions : List SubscriptionRow := []
deriving DecidableEq, Repr

/-! ## Challenge submissions (`createSubmission`, `withdrawMySubmission`) -/

/-- Body of `POST /challenges/:id/submissions` after Zod validation. -/
structure SubmitEntryInput where
  subPlatform : String
  linkUrl : Option String := none
  imageKey : Option String := none
  notes : Option String := none
deriving DecidableEq, Repr

/-- The submitter's most recent published card
(`findFirst({ where: { userId, publishStatus: 'PUBLISHED' },
orderBy: [{ publishedAt: 'desc' }] })`). -/
def publishedCardOf (cards : List Card) (uid : String) : Option Card :=
  (cards.filter
      (fun c => c.userId == uid && c.publishStatus == PublishStatus.PUBLISHED)
    ).foldl
    (fun best c =>
      match best with
      | none => some c
      | some b =>
          if c.publishedAt.getD 0 > b.publishedAt.getD 0 then some c
          else some b)
    none

/-- The public socials of a card, ordered by `sortOrder`, projected to the
snapshot shape. -/
def snapshotSocials (card : Option Card) : List SnapSocial :=
  match card with
  | none => []
  | some card =>
      (sortBySortOrder (card.socials.filter (fun s => s.isPublic))).map
        (fun r =>
          { socialPlatform := r.socialPlatform
            handle := r.handle
            url := r.url
            label := r.label })

/-- The per-challenge counter bump applied inside the submission
transaction (`nextSubmissionOrder: { increment: 1 }`). -/
def bumpChallenge (cid : String) (x : Challenge) : Challenge :=
  if x.id == cid then
    { x with nextSubmissionOrder := x.nextSubmissionOrder + 1 }
  else x

/-- The submission row inserted by `createSubmission` against challenge
`c`: snapshot of the submitter's display name / phone / public socials,
order taken as the post-increment counter minus one (the pre-increment
value). -/
def newSubmissionRow (db : Db) (uid : String) (cid : String)
    (input : SubmitEntryInput) (newId : String) (c : Challenge) :
    SubmissionRow :=
  let user := db.users.find? (fun u => u.id == uid)
  let card := publishedCardOf db.cards uid
  let socials := snapshotSocials card
  let updatedCounter := c.nextSubmissionOrder + 1
  let order := updatedCounter - 1
  { id := newId
    challengeId := cid
    submitterId := uid
    subPlatform := input.subPlatform
    linkUrl := input.linkUrl
    imageKey := input.imageKey
    notes := match input.notes with
      | some s => if s.length != 0 then some s else none
      | none => none
    submissionOrder := order
    submitterName := user.map (fun u => u.displayName)
    submitterPhone := user.bind (fun u => u.phone)
    submitterSocials := socials
    modStatus := "PENDING" }

/-- `createSubmission`: auth guard, challenge must exist and be
`PUBLISHED` + `OPEN` (404 otherwise), one-submission-per-user guard (409),
then — in one transaction — atomically increment the challenge's
`nextSubmissionOrder` and insert the submission carrying the
pre-increment value. -/
def createSubmission (db : Db) (uid : Option String) (cid : String)
    (input : SubmitEntryInput) (newId : String) : ApiResult × Db :=
  match uid with
  | none => (.unauthorized, db)
  | some uid =>
      match db.challenges.find? (fun c => c.id == cid) with
      | none => (.notFound, db)
      | some c =>
          if c.publishStatus != .PUBLISHED || c.chStatus != "OPEN" then
            (.notFound, db)
          else if (db.submissions.find?
              (fun s => s.challengeId == cid && s.submitterId == uid)).isSome
            then
            (.conflict, db)
          else
            (.success,
              { db with
                  challenges := db.challenges.map (bumpChallenge cid)
                  submissions :=
                    db.submissions ++ [newSubmissionRow db uid cid input newId c] })

/-- `withdrawMySubmission`: delete the caller's own submission when
present, 404 otherwise.  The challenge counter is not touched. -/
def withdrawMySubmission (db : Db) (uid : Option String) (cid : String) :
    ApiResult × Db :=
  match uid with
  | none => (.unauthorized, db)
  | some uid =>
      match db.submissions.find?
          (fun s => s.challengeId == cid && s.submitterId == uid) with
      | none => (.notFound, db)
      | some ex =>
          (.success,
            { db with
                submissions := db.submissions.filter (fun s => s.id != ex.id) })

/-! ## Billing reconciliation (`src/controllers/billingController.ts`,
`finalizeFromCheckout`) -/

/-- The configured Stripe price ids (`env.ts`, all required). -/
structure BillingEnv where
  STRIPE_PRICE_BASIC : String
  STRIPE_PRICE_PRO : String
  STRIPE_PRICE_ULTIMATE : String
deriving DecidableEq, Repr

/-- The price attached to the first subscription item, as expanded by
`checkout.sessions.retrieve`. -/
structure StripePrice where
  id : String
  lookupKey : Option String := none
deriving DecidableEq, Repr

structure StripeItem where
  price : Option StripePrice := none
deriving DecidableEq, Repr

/-- A `Stripe.Subscription` object as used by `finalizeFromCheckout`
(`current_period_end` in seconds). -/
structure StripeSubscription where
  id : String
  subStatus : String
  customer : Option String := none
  metadataAppUserId : Option String := none
  metadataPlan : Option String := none
  items : List StripeItem := []
  currentPeriodEndSec : Nat := 0
deriving DecidableEq, Repr

/-- `session.subscription` is `string | Stripe.Subscription | null`. -/
inductive SessionSub where
  | ref (id : String)
  | obj (sub : StripeSubscription)
deriving DecidableEq, Repr

/-- A retrieved checkout session. -/
structure CheckoutSession where
  subscription : Option SessionSub := none
  metadataAppUserId : Option String := none
  metadataPlan : Option String := none
deriving DecidableEq, Repr

/-- Outcome of `finalizeFromCheckout` (JSON `status` plus HTTP code). -/
inductive FinalizeOutcome where
  | okPersisted
  | okNoSubscription
  | unauthorized
  | missingSessionId
  | storeError
deriving DecidableEq, Repr

/-- Plan determination: `lookup_key` first, then
`sub.metadata.plan || session.metadata.plan`, then a match against the
configured price ids. -/
def resolvePlan (env : BillingEnv) (sess : CheckoutSession)
    (sub : StripeSubscription) : Option String :=
  let price := (sub.items.head?).bind (fun i => i.price)
  let lookup := price.bind (fun p => p.lookupKey)
  if lookup = some "basic_monthly" then some "basic"
  else if lookup = some "pro_monthly" then some "pro"
  else if lookup = some "ultimate_monthly" then some "ultimate"
  else
    let metaPlan :=
      if jsTruthy sub.metadataPlan then sub.metadataPlan
      else sess.metadataPlan
    if metaPlan = some "basic" ∨ metaPlan = some "pro" ∨
        metaPlan = some "ultimate" then metaPlan
    else
      match price with
      | none => none
      | some p =>
          if p.id = env.STRIPE_PRICE_BASIC then some "basic"
          else if p.id = env.STRIPE_PRICE_PRO then some "pro"
          else if p.id = env.STRIPE_PRICE_ULTIMATE then some "ultimate"
          else none

/-- Owner determination: subscription metadata, then session metadata,
then a lookup by Stripe customer id, then the calling user
(guards use JavaScript truthiness, so an empty-string id also falls
through). -/
def resolveAppUserId (users : List User) (callerId : String)
    (sess : CheckoutSession) (sub : StripeSubscription) : String :=
  let fromMeta : Option String :=
    match sub.metadataAppUserId with
    | some v => some v
    | none => sess.metadataAppUserId
  let afterCustomer : Option String :=
    if !(jsTruthy fromMeta) then
      match sub.customer with
      | some cust =>
          (users.find? (fun u => u.stripeCustomerId == some cust)).map
            (fun owner => owner.id)
      | none => fromMeta
    else fromMeta
  if jsTruthy afterCustomer then afterCustomer.getD callerId else callerId

/-- `prisma.subscription.upsert({ where: { stripeSubId } })`: update the
row when the key exists (the `update` branch does not touch `userId`),
insert otherwise. -/
def upsertSubscription (subs : List SubscriptionRow) (created : SubscriptionRow) :
    List SubscriptionRow :=
  if subs.any (fun r => r.stripeSubId == created.stripeSubId) then
    subs.map (fun r =>
      if r.stripeSubId == created.stripeSubId then
        { r with
            stripePriceId := created.stripePriceId
            subStatus := created.subStatus
            currentPeriodEnd := created.currentPeriodEnd }
      else r)
  else subs ++ [created]

/-- `prisma.user.update({ where: { id: appUserId } })` writing
`plan: plan ?? undefined`, `subscriptionStatus`, `currentPeriodEnd`. -/
def updateUserBilling (users : List User) (uid : String)
    (plan : Option String) (status : String) (periodEnd : Nat) : List User :=
  users.map (fun u =>
    if u.id == uid then
      { u with
          plan := match plan with
            | some p => some p
            | none => u.plan
          subscriptionStatus := some status
          currentPeriodEnd := some periodEnd }
    else u)

/-- The persistence step of `finalizeFromCheckout` once a subscription
object is attached: resolve the owner and plan, upsert the local
subscription keyed by the Stripe subscription id, then update the owner's
plan/status/period-end.  A missing owner row makes the user update throw
after the subscription upsert already persisted — there is no enclosing
transaction. -/
def finalizeSubPersist (env : BillingEnv) (callerId : String)
    (sess : CheckoutSession) (sub : StripeSubscription) (db : Db) :
    FinalizeOutcome × Db :=
  let appUserId := resolveAppUserId db.users callerId sess sub
  let plan := resolvePlan env sess sub
  let price := (sub.items.head?).bind (fun i => i.price)
  let periodEnd := sub.currentPeriodEndSec * 1000
  let subs' := upsertSubscription db.subscriptions
    { stripeSubId := sub.id
      userId := appUserId
      stripePriceId := (price.map (fun p => p.id)).getD ""
      subStatus := sub.subStatus
      currentPeriodEnd := periodEnd }
  if db.users.any (fun u => u.id == appUserId) then
    (.okPersisted,
      { db with
          subscriptions := subs'
          users := updateUserBilling db.users appUserId plan
            sub.subStatus periodEnd })
  else
    (.storeError, { db with subscriptions := subs' })

/-- `finalizeFromCheckout`: 401 without a session user, 400 without a
`session_id`, graceful no-op when the session has no expanded
subscription, otherwise resolve owner and plan, upsert the local
subscription keyed by the Stripe subscription id, and update the owner's
plan/status/period-end (a missing owner row makes the user update throw
after the subscription upsert already persisted — there is no enclosing
transaction). -/
def finalizeFromCheckout (env : BillingEnv) (caller : Option String)
    (sessionId : Option String) (sess : CheckoutSession) (db : Db) :
    FinalizeOutcome × Db :=
  match caller with
  | none => (.unauthorized, db)
  | some callerId =>
      if !(jsTruthy (sessionId.map (fun s => jsTrim s))) then
        (.missingSessionId, db)
      else
        match sess.subscription with
        | none => (.okNoSubscription, db)
        | some (.ref _) => (.okNoSubscription, db)
        | some (.obj sub) => finalizeSubPersist env callerId sess sub db

/-! ## Submission-order invariants -/

/-- The submission counter of a challenge (0 when the id is unknown). -/
def counterOf (db : Db) (cid : String) : Nat :=
  match db.challenges.find? (fun c => c.id == cid) with
  | some c => c.nextSubmissionOrder
  | none => 0

/-- All submissions of one challenge. -/
def subsOf (db : Db) (cid : String) : List SubmissionRow :=
  db.submissions.filter (fun s => s.challengeId == cid)

/-- Store well-formedness: primary keys are unique per table (the store
enforces this with unique constraints). -/
def DbWf (db : Db) : Prop :=
  (db.challenges.map (fun c => c.id)).Nodup ∧
  (db.cards.map (fun c => c.id)).Nodup ∧
  (db.portfolios.map (fun p => p.id)).Nodup

/-- Order bookkeeping invariant: every submission's order is strictly
below its challenge's counter, and orders are pairwise distinct within a
challenge. -/
def OrdersInv (db : Db) : Prop :=
  ∀ c ∈ db.challenges,
    (∀ s ∈ subsOf db c.id, s.submissionOrder < c.nextSubmissionOrder) ∧
    ((subsOf db c.id).map (fun s => s.submissionOrder)).Nodup

instance (db : Db) : Decidable (DbWf db) := by
  unfold DbWf; infer_instance

instance (db : Db) : Decidable (OrdersInv db) := by
  unfold OrdersInv subsOf; infer_instance

/-- One submission-subsystem step: any submit or withdraw request. -/
inductive SubStep : Db → Db → Prop where
  | submit (db : Db) (uid : Option String) (cid : String)
      (input : SubmitEntryInput) (newId : String) :
      SubStep db (createSubmission db uid cid input newId).2
  | withdraw (db : Db) (uid : Option String) (cid : String) :
      SubStep db (withdrawMySubmission db uid cid).2

/-- Reachability through submission-subsystem steps. -/
abbrev ReachSub : Db → Db → Prop :=
  Relation.ReflTransGen SubStep

/-! ## Concrete rows used by closed checks -/

/-- A published OPEN challenge owned by `alice`. -/
def demoOpenChallenge : Challenge :=
  { id := "ch1", userId := "alice", slug := "s", title := "t",
    publishStatus := .PUBLISHED, chStatus := "OPEN" }

/-- The same challenge still in DRAFT. -/
def demoDraftChallenge : Challenge :=
  { id := "ch1", userId := "alice", slug := "s", title := "t",
    publishStatus := .DRAFT, chStatus := "OPEN" }

/-- An existing submission by `bob` to that challenge. -/
def demoSubmission : SubmissionRow :=
  { id := "s0", challengeId := "ch1", submitterId := "bob",
    subPlatform := "X", submissionOrder := 0 }

/-! # Claims -/

/-- C1: the claim states that identity-bridge reconciliation never writes
`username` and that a first-time login creates the row with `username`
unset.  In the code, a first-time login whose provider claims carry a
username creates the row with that username written. -/
theorem C1_counterexample :
    (upsertUserFromClerk [] "u1"
        { clerkId := "ck1", username := some "bob", displayName := "Bob" }).1.username
        = some "bob"
    ∧ (upsertUserFromClerk [] "u1"
        { clerkId := "ck1", username := some "bob", displayName := "Bob" }).1.username
        ≠ none := by
  exact ⟨rfl, by decide⟩

/-- C1 (amended): reconciliation fills `username` only while it is
empty — a first encounter writes the provider's username claim verbatim,
and a subsequent login never changes a `username` that is already
non-empty (in particular one set by the dedicated profile path). -/
theorem C1_username_fill_once (users : List User) (newId : String)
    (input : ClerkInput) :
    (users.find? (fun v => v.clerkId == input.clerkId) = none →
        (upsertUserFromClerk users newId input).1.username = input.username)
    ∧ ∀ u, users.find? (fun v => v.clerkId == input.clerkId) = some u →
        jsTruthy u.username = true →
        (upsertUserFromClerk users newId input).1.username = u.username := by
  constructor
  · intro h
    simp [upsertUserFromClerk, h, createUserFromClerk]
  · intro u h ht
    simp [upsertUserFromClerk, h, updateUserFromClerk, ht]

theorem C1_username_fill_once_witness :
    (upsertUserFromClerk
        [{ id := "u1", clerkId := "ck1", username := some "taken",
           displayName := "U" }] "u2"
        { clerkId := "ck1", username := some "prov", displayName := "P" }).1.username
      = some "taken" := by
  exact (C1_username_fill_once
      [{ id := "u1", clerkId := "ck1", username := some "taken",
         displayName := "U" }] "u2"
      { clerkId := "ck1", username := some "prov", displayName := "P" }).2
    { id := "u1", clerkId := "ck1", username := some "taken",
      displayName := "U" }
    (by decide) (by decide)

/-- C8: the claim states that on a subsequent reconciliation the
provider-owned fields are never overwritten with an empty string.  In the
code only `null`/absent incoming values fall back to the stored value
(`input.email ?? undefined`); an incoming empty string does overwrite. -/
theorem C8_counterexample :
    (upsertUserFromClerk
        [{ id := "u1", clerkId := "ck1", email := some "a@b.c",
           displayName := "A" }] "u2"
        { clerkId := "ck1", email := some "", displayName := "A" }).1.email
      = some "" := by
  rfl

/-- C8 (amended): on a subsequent reconciliation, each provider-owned
field (`email`, `displayName`, `avatarUrl`) is overwritten by any present
incoming value — including the empty string — and keeps its stored value
only when the incoming value is null/absent (so it is never nulled out);
each user-managed field (`country`, `phone`, `religion`) is written only
when the stored value is empty/absent and the incoming value is
non-empty. -/
theorem C8_subsequent_refresh (users : List User) (newId : String)
    (input : ClerkInput) (u : User)
    (hfind : users.find? (fun v => v.clerkId == input.clerkId) = some u) :
    (upsertUserFromClerk users newId input).1 = updateUserFromClerk u input
    ∧ ((updateUserFromClerk u input).email
        = match input.email with
          | none => u.email
          | some s => some s)
    ∧ (updateUserFromClerk u input).displayName = input.displayName
    ∧ ((updateUserFromClerk u input).avatarUrl
        = match input.avatarUrl with
          | none => u.avatarUrl
          | some s => some s)
    ∧ (jsTruthy u.country = true →
        (updateUserFromClerk u input).country = u.country)
    ∧ (jsTruthy u.country = false → jsTruthy input.country = true →
        (updateUserFromClerk u input).country = input.country)
    ∧ (jsTruthy input.country = false →
        (updateUserFromClerk u input).country = u.country)
    ∧ (jsTruthy u.phone = true →
        (updateUserFromClerk u input).phone = u.phone)
    ∧ (jsTruthy u.phone = false → jsTruthy input.phone = true →
        (updateUserFromClerk u input).phone = input.phone)
    ∧ (jsTruthy input.phone = false →
        (updateUserFromClerk u input).phone = u.phone)
    ∧ (jsTruthy u.religion = true →
        (updateUserFromClerk u input).religion = u.religion)
    ∧ (jsTruthy u.religion = false → jsTruthy input.religion = true →
        (updateUserFromClerk u input).religion = input.religion)
    ∧ (jsTruthy input.religion = false →
        (updateUserFromClerk u input).religion = u.religion) := by
  refine ⟨by simp [upsertUserFromClerk, hfind], ?_, ?_, ?_, ?_, ?_, ?_, ?_,
    ?_, ?_, ?_, ?_, ?_⟩
  · cases h : input.email <;> simp [updateUserFromClerk, h]
  · simp [updateUserFromClerk]
  · cases h : input.avatarUrl <;> simp [updateUserFromClerk, h]
  · intro h; simp [updateUserFromClerk, h]
  · intro h1 h2; simp [updateUserFromClerk, h1, h2]
  · intro h; simp [updateUserFromClerk, h]
  · intro h; simp [updateUserFromClerk, h]
  · intro h1 h2; simp [updateUserFromClerk, h1, h2]
  · intro h; simp [updateUserFromClerk, h]
  · intro h; simp [updateUserFromClerk, h]
  · intro h1 h2; simp [updateUserFromClerk, h1, h2]
  · intro h; simp [updateUserFromClerk, h]

theorem C8_subsequent_refresh_witness :
    (upsertUserFromClerk
        [{ id := "u1", clerkId := "ck1", email := some "a@b.c",
           country := some "KH", displayName := "A" }] "u2"
        { clerkId := "ck1", email := some "new@b.c", country := some "US",
          displayName := "A" }).1
      = updateUserFromClerk
        { id := "u1", clerkId := "ck1", email := some "a@b.c",
          country := some "KH", displayName := "A" }
        { clerkId := "ck1", email := some "new@b.c", country := some "US",
          displayName := "A" }
    ∧ (updateUserFromClerk
        { id := "u1", clerkId := "ck1", email := some "a@b.c",
          country := some "KH", displayName := "A" }
        { clerkId := "ck1", email := some "new@b.c", country := some "US",
          displayName := "A" }).country = some "KH" := by
  have h := C8_subsequent_refresh
    [{ id := "u1", clerkId := "ck1", email := some "a@b.c",
       country := some "KH", displayName := "A" }] "u2"
    { clerkId := "ck1", email := some "new@b.c", country := some "US",
      displayName := "A" }
    { id := "u1", clerkId := "ck1", email := some "a@b.c",
      country := some "KH", displayName := "A" }
    (by decide)
  exact ⟨h.1, h.2.2.2.2.1 (by decide)⟩

/-- C2: the claim states that for every resource an update to any status
other than `PUBLISHED` — including `PRIVATE` — clears `publishedAt`.  For
digital name cards the controller clears only on `DRAFT`: patching a
published card (with `publishedAt` set) to `PRIVATE` keeps the
timestamp. -/
theorem C2_counterexample :
    (updateCard
        [{ id := "c1", userId := "alice", slug := "jane",
           publishStatus := .PUBLISHED, publishedAt := some 5 }]
        (some "alice") "c1" { publishStatus := some .PRIVATE } 9)
      = (.success,
        [{ id := "c1", userId := "alice", slug := "jane",
           publishStatus := .PRIVATE, publishedAt := some 5 }])
    ∧ cardNextPublishedAt (some .PRIVATE) (some 5) 9 ≠ none := by
  exact ⟨by decide, by decide⟩

/-- C2 (amended): for challenges and portfolios the transition rule holds
exactly as claimed (entering `PUBLISHED` with no timestamp stamps now,
entering it again keeps the timestamp, any other incoming status clears
to null, a patch without a status leaves it untouched).  For digital name
cards the rule holds for `DRAFT` and `PUBLISHED`, but a patch to
`PRIVATE` keeps the current timestamp instead of clearing it. -/
theorem C2_publishedAt_transitions (cur : Option Nat) (t now : Nat) :
    (challengeNextPublishedAt (some .PUBLISHED) none now = some now
      ∧ challengeNextPublishedAt (some .PUBLISHED) (some t) now = some t
      ∧ challengeNextPublishedAt (some .DRAFT) cur now = none
      ∧ challengeNextPublishedAt (some .PRIVATE) cur now = none
      ∧ challengeNextPublishedAt none cur now = cur)
    ∧ (portfolioNextPublishedAt (some .PUBLISHED) none now = some now
      ∧ portfolioNextPublishedAt (some .PUBLISHED) (some t) now = some t
      ∧ portfolioNextPublishedAt (some .DRAFT) cur now = none
      ∧ portfolioNextPublishedAt (some .PRIVATE) cur now = none
      ∧ portfolioNextPublishedAt none cur now = cur)
    ∧ (cardNextPublishedAt (some .PUBLISHED) none now = some now
      ∧ cardNextPublishedAt (some .PUBLISHED) (some t) now = some t
      ∧ cardNextPublishedAt (some .DRAFT) cur now = none
      ∧ cardNextPublishedAt (some .PRIVATE) cur now = cur
      ∧ cardNextPublishedAt none cur now = cur) := by
  refine ⟨⟨rfl, rfl, rfl, rfl, rfl⟩, ⟨rfl, rfl, rfl, rfl, rfl⟩,
    ⟨rfl, rfl, ?_, ?_, ?_⟩⟩
  · simp [cardNextPublishedAt]
  · simp [cardNextPublishedAt]
  · simp [cardNextPublishedAt]

/-- C7: owner-view serialization returns every sensitive raw value
regardless of its flag; public-view serialization returns a sensitive
value exactly when its flag is true and null otherwise; when a flag is
false the public output is independent of the hidden stored value; and
the flags themselves appear in both views.  This holds for the card
fields (phone, religion, company, university, country) and the profile
fields (email, date of birth, phone, religion, country). -/
theorem C7_visibility_projection (card : Card) (u : User)
    (p r co uni ct em : Option String) (dob : Option Nat) :
    ((serializeCard card true).phone = card.phone
      ∧ (serializeCard card true).religion = card.religion
      ∧ (serializeCard card true).company = card.company
      ∧ (serializeCard card true).university = card.university
      ∧ (serializeCard card true).country = card.country)
    ∧ ((serializeCard card false).phone
        = (if card.showPhone then card.phone else none)
      ∧ (serializeCard card false).religion
        = (if card.showReligion then card.religion else none)
      ∧ (serializeCard card false).company
        = (if card.showCompany then card.company else none)
      ∧ (serializeCard card false).university
        = (if card.showUniversity then card.university else none)
      ∧ (serializeCard card false).country
        = (if card.showCountry then card.country else none))
    ∧ (∀ b, (serializeCard card b).showPhone = card.showPhone
      ∧ (serializeCard card b).showReligion = card.showReligion
      ∧ (serializeCard card b).showCompany = card.showCompany
      ∧ (serializeCard card b).showUniversity = card.showUniversity
      ∧ (serializeCard card b).showCountry = card.showCountry)
    ∧ (card.showPhone = false →
        serializeCard { card with phone := p } false = serializeCard card false)
    ∧ (card.showReligion = false →
        serializeCard { card with religion := r } false
          = serializeCard card false)
    ∧ (card.showCompany = false →
        serializeCard { card with company := co } false
          = serializeCard card false)
    ∧ (card.showUniversity = false →
        serializeCard { card with university := uni } false
          = serializeCard card false)
    ∧ (card.showCountry = false →
        serializeCard { card with country := ct } false
          = serializeCard card false)
    ∧ ((serializeProfile u true).email = u.email
      ∧ (serializeProfile u true).dateOfBirth = toYMD u.dateOfBirth
      ∧ (serializeProfile u true).phone = u.phone
      ∧ (serializeProfile u true).religion = u.religion
      ∧ (serializeProfile u true).country = u.country)
    ∧ ((serializeProfile u false).email
        = (if u.showEmail then u.email else none)
      ∧ (serializeProfile u false).dateOfBirth
        = (if u.showDateOfBirth then toYMD u.dateOfBirth else none)
      ∧ (serializeProfile u false).phone
        = (if u.showPhone then u.phone else none)
      ∧ (serializeProfile u false).religion
        = (if u.showReligion then u.religion else none)
      ∧ (serializeProfile u false).country
        = (if u.showCountry then u.country else none))
    ∧ (∀ b, (serializeProfile u b).showEmail = u.showEmail
      ∧ (serializeProfile u b).showDateOfBirth = u.showDateOfBirth
      ∧ (serializeProfile u b).showPhone = u.showPhone
      ∧ (serializeProfile u b).showReligion = u.showReligion
      ∧ (serializeProfile u b).showCountry = u.showCountry)
    ∧ (u.showEmail = false →
        serializeProfile { u with email := em } false = serializeProfile u false)
    ∧ (u.showDateOfBirth = false →
        serializeProfile { u with dateOfBirth := dob } false
          = serializeProfile u false) := by
  refine ⟨⟨rfl, rfl, rfl, rfl, rfl⟩, ⟨rfl, rfl, rfl, rfl, rfl⟩,
    fun b => ⟨rfl, rfl, rfl, rfl, rfl⟩, ?_, ?_, ?_, ?_, ?_,
    ⟨rfl, rfl, rfl, rfl, rfl⟩, ⟨rfl, rfl, rfl, rfl, rfl⟩,
    fun b => ⟨rfl, rfl, rfl, rfl, rfl⟩, ?_, ?_⟩
  · intro h; simp [serializeCard, h]
  · intro h; simp [serializeCard, h]
  · intro h; simp [serializeCard, h]
  · intro h; simp [serializeCard, h]
  · intro h; simp [serializeCard, h]
  · intro h; simp [serializeProfile, h]
  · intro h; simp [serializeProfile, h]

/-- C7 witness: a card hiding `phone="555-1234"` serializes for the
public identically to the same card with no phone at all, and a profile
hiding its date of birth serializes identically when the stored date
changes. -/
theorem C7_visibility_projection_witness :
    serializeCard
        { id := "c1", userId := "alice", slug := "jane",
          phone := some "555-1234", showPhone := false } false
      = serializeCard
        { id := "c1", userId := "alice", slug := "jane",
          phone := none, showPhone := false } false
    ∧ serializeProfile
        { id := "u1", clerkId := "ck1", dateOfBirth := some 123456789,
          showDateOfBirth := false } false
      = serializeProfile
        { id := "u1", clerkId := "ck1", dateOfBirth := none,
          showDateOfBirth := false } false := by
  constructor
  · exact (C7_visibility_projection
      { id := "c1", userId := "alice", slug := "jane",
        phone := none, showPhone := false }
      { id := "u1", clerkId := "ck1" }
      (some "555-1234") none none none none none none).2.2.2.1 rfl
  · exact (C7_visibility_projection
      { id := "c1", userId := "alice", slug := "jane" }
      { id := "u1", clerkId := "ck1", dateOfBirth := none,
        showDateOfBirth := false }
      none none none none none none (some 123456789)).2.2.2.2.2.2.2.2.2.2.2.2 rfl

/-- C9: creating a name card whose caller-chosen slug is already taken
fails with Conflict and leaves the table unchanged; a successful create
persists the slug exactly as given (never auto-suffixed); and an update
changing the slug to one already in use fails with Conflict leaving the
card and its socials unchanged. -/
theorem C9_card_slug_conflict (cards : List Card) (uid : String)
    (input : CreateCardInput) (patch : UpdateCardInput) (id newId : String)
    (now : Nat) :
    ((∃ c ∈ cards, c.slug = input.slug) →
        createCard cards (some uid) input newId now = (.conflict, cards))
    ∧ ((¬ ∃ c ∈ cards, c.slug = input.slug) →
        ∃ created, createCard cards (some uid) input newId now
            = (.success, cards ++ [created]) ∧ created.slug = input.slug)
    ∧ (∀ card s, cards.find? (fun c => c.id == id) = some card →
        card.userId = uid → patch.slug = some s → s ≠ card.slug →
        (∃ c ∈ cards, c.slug = s) →
        updateCard cards (some uid) id patch now = (.conflict, cards)) := by
  refine ⟨?_, ?_, ?_⟩
  · intro hex
    have hsome : (cards.find? (fun c => c.slug == input.slug)).isSome = true := by
      rw [List.find?_isSome]
      obtain ⟨c, hc, hcs⟩ := hex
      exact ⟨c, hc, by simp [hcs]⟩
    simp [createCard, hsome]
  · intro hex
    have hnone : (cards.find? (fun c => c.slug == input.slug)).isSome = false := by
      rw [Bool.eq_false_iff]
      intro hsome
      rw [List.find?_isSome] at hsome
      obtain ⟨c, hc, hcs⟩ := hsome
      exact hex ⟨c, hc, by simpa using hcs⟩
    exact ⟨newCardRow uid input newId now, by simp [createCard, hnone], rfl⟩
  · intro card s hfind huid hslug hneq hex
    have h1 : (card.userId != uid) = false := by simp [huid]
    have h3 : (cards.find? (fun c => c.slug == s)).isSome = true := by
      rw [List.find?_isSome]
      obtain ⟨c, hc, hcs⟩ := hex
      exact ⟨c, hc, by simp [hcs]⟩
    simp [updateCard, hfind, hslug, h1, h3, hneq]

/-- C9 witness: a concrete duplicate-slug create is rejected with
Conflict, a fresh create keeps the exact slug, and a duplicate-slug
update is rejected. -/
theorem C9_card_slug_conflict_witness :
    createCard
        [{ id := "c1", userId := "alice", slug := "jane" }]
        (some "bob") { slug := "jane" } "c2" 7
      = (.conflict, [{ id := "c1", userId := "alice", slug := "jane" }])
    ∧ (∃ created, createCard
        [{ id := "c1", userId := "alice", slug := "jane" }]
        (some "bob") { slug := "jane-2" } "c2" 7
      = (.success, [{ id := "c1", userId := "alice", slug := "jane" }]
          ++ [created]) ∧ created.slug = "jane-2")
    ∧ updateCard
        [{ id := "c1", userId := "alice", slug := "jane" },
         { id := "c2", userId := "alice", slug := "mary" }]
        (some "alice") "c2" { slug := some "jane" } 7
      = (.conflict,
        [{ id := "c1", userId := "alice", slug := "jane" },
         { id := "c2", userId := "alice", slug := "mary" }]) := by
  refine ⟨?_, ?_, ?_⟩
  · exact (C9_card_slug_conflict
      [{ id := "c1", userId := "alice", slug := "jane" }] "bob"
      { slug := "jane" } {} "x" "c2" 7).1
      ⟨{ id := "c1", userId := "alice", slug := "jane" }, by decide, rfl⟩
  · exact (C9_card_slug_conflict
      [{ id := "c1", userId := "alice", slug := "jane" }] "bob"
      { slug := "jane-2" } {} "x" "c2" 7).2.1
      (by decide)
  · exact (C9_card_slug_conflict
      [{ id := "c1", userId := "alice", slug := "jane" },
       { id := "c2", userId := "alice", slug := "mary" }] "alice"
      { slug := "jane" } { slug := some "jane" } "c2" "x" 7).2.2
      { id := "c2", userId := "alice", slug := "mary" } "jane"
      (by decide) rfl rfl (by decide)
      ⟨{ id := "c1", userId := "alice", slug := "jane" }, by decide, rfl⟩

/-- C10: on challenge create and update, at most the first 6 entries of
the provided images array are persisted; extra images are silently
discarded (the request still succeeds), never rejected. -/
theorem C10_challenge_images_capped (challenges : List Challenge)
    (uid id newId : String) (payload : CreateChallengeInput)
    (body : UpdateChallengeInput) (now : Nat) :
    (createChallenge challenges (some uid) payload newId now
        = (.success,
          challenges ++ [newChallengeRow challenges uid payload newId now])
      ∧ (newChallengeRow challenges uid payload newId now).images
        = ((payload.images.getD []).take 6).map resolveImage
      ∧ (newChallengeRow challenges uid payload newId now).images.length ≤ 6)
    ∧ (∀ existing, challenges.find? (fun c => c.id == id && c.userId == uid)
          = some existing →
        updateChallenge challenges (some uid) id body now
          = (.success, challenges.map (fun c =>
              if c.id == id then
                updatedChallengeRow challenges existing body now
              else c))
        ∧ ∀ imgs, body.images = some imgs →
            (updatedChallengeRow challenges existing body now).images
              = (imgs.take 6).map resolveImage
            ∧ (updatedChallengeRow challenges existing body now).images.length
              ≤ 6) := by
  refine ⟨⟨rfl, rfl, ?_⟩, ?_⟩
  · simp [newChallengeRow]
  · intro existing hfind
    refine ⟨by simp [updateChallenge, hfind], ?_⟩
    intro imgs himgs
    refine ⟨by simp [updatedChallengeRow, himgs], ?_⟩
    simp [updatedChallengeRow, himgs]

/-- C10 witness: a create and an update each carrying 7 images persist
exactly the first 6. -/
theorem C10_challenge_images_capped_witness :
    (newChallengeRow [] "alice"
        { title := "t",
          images := some [⟨"k1", "u1", none⟩, ⟨"k2", "u2", none⟩,
            ⟨"k3", "u3", none⟩, ⟨"k4", "u4", none⟩, ⟨"k5", "u5", none⟩,
            ⟨"k6", "u6", none⟩, ⟨"k7", "u7", none⟩] } "ch1" 0).images.length
      ≤ 6
    ∧ (updatedChallengeRow
        [{ id := "c1", userId := "alice", slug := "s", title := "t" }]
        { id := "c1", userId := "alice", slug := "s", title := "t" }
        { images := some [⟨"k1", "u1", none⟩, ⟨"k2", "u2", none⟩,
            ⟨"k3", "u3", none⟩, ⟨"k4", "u4", none⟩, ⟨"k5", "u5", none⟩,
            ⟨"k6", "u6", none⟩, ⟨"k7", "u7", none⟩] } 0).images
      = ([⟨"k1", "u1", none⟩, ⟨"k2", "u2", none⟩, ⟨"k3", "u3", none⟩,
          ⟨"k4", "u4", none⟩, ⟨"k5", "u5", none⟩, ⟨"k6", "u6", none⟩,
          (⟨"k7", "u7", none⟩ : ImageInput)].take 6).map resolveImage := by
  constructor
  · exact (C10_challenge_images_capped [] "alice" "x" "ch1"
      { title := "t",
        images := some [⟨"k1", "u1", none⟩, ⟨"k2", "u2", none⟩,
          ⟨"k3", "u3", none⟩, ⟨"k4", "u4", none⟩, ⟨"k5", "u5", none⟩,
          ⟨"k6", "u6", none⟩, ⟨"k7", "u7", none⟩] } {} 0).1.2.2
  · exact (((C10_challenge_images_capped
      [{ id := "c1", userId := "alice", slug := "s", title := "t" }]
      "alice" "c1" "x" { title := "t" }
      { images := some [⟨"k1", "u1", none⟩, ⟨"k2", "u2", none⟩,
          ⟨"k3", "u3", none⟩, ⟨"k4", "u4", none⟩, ⟨"k5", "u5", none⟩,
          ⟨"k6", "u6", none⟩, ⟨"k7", "u7", none⟩] } 0).2
      { id := "c1", userId := "alice", slug := "s", title := "t" }
      (by decide)).2
      [⟨"k1", "u1", none⟩, ⟨"k2", "u2", none⟩, ⟨"k3", "u3", none⟩,
        ⟨"k4", "u4", none⟩, ⟨"k5", "u5", none⟩, ⟨"k6", "u6", none⟩,
        ⟨"k7", "u7", none⟩] rfl).1

/-- C6: for each resource type, when the resource exists but belongs to a
different user, the owner-scoped get / update / delete all answer with
NotFound (never Forbidden) and leave the store unchanged, so a caller
cannot distinguish a non-owned resource from a non-existent one.  The
hypotheses assume the store's primary keys are unique, as enforced by its
unique constraints. -/
theorem C6_ownership_merged_into_notFound (cards : List Card)
    (challenges : List Challenge) (ports : List Portfolio) (uid id : String)
    (patchC : UpdateCardInput) (patchCh : UpdateChallengeInput)
    (patchP : UpdatePortfolioInput) (now : Nat) :
    ((cards.map (fun c => c.id)).Nodup →
      ∀ card ∈ cards, card.id = id → card.userId ≠ uid →
        getMyCardByIdRes cards (some uid) id = .notFound
        ∧ updateCard cards (some uid) id patchC now = (.notFound, cards)
        ∧ deleteCard cards (some uid) id = (.notFound, cards))
    ∧ ((challenges.map (fun c => c.id)).Nodup →
      ∀ ch ∈ challenges, ch.id = id → ch.userId ≠ uid →
        getMyChallengeByIdRes challenges (some uid) id = .notFound
        ∧ updateChallenge challenges (some uid) id patchCh now
          = (.notFound, challenges)
        ∧ deleteChallenge challenges (some uid) id = (.notFound, challenges))
    ∧ ((ports.map (fun p => p.id)).Nodup →
      ∀ p ∈ ports, p.id = id → p.userId ≠ uid →
        getMyPortfolioByIdRes ports (some uid) id = .notFound
        ∧ updatePortfolio ports (some uid) id patchP now = (.notFound, ports)
        ∧ deletePortfolio ports (some uid) id = (.notFound, ports)) := by
  refine ⟨?_, ?_, ?_⟩
  · intro hnodup card hmem hid hown
    have hsome : (cards.find? (fun c => c.id == id)).isSome = true := by
      rw [List.find?_isSome]
      exact ⟨card, hmem, by simp [hid]⟩
    obtain ⟨card', hfind⟩ := Option.isSome_iff_exists.mp hsome
    have hmem' := List.mem_of_find?_eq_some hfind
    have hid' : card'.id = id := by simpa using List.find?_some hfind
    have heq : card' = card :=
      List.inj_on_of_nodup_map hnodup hmem' hmem (by rw [hid', hid])
    have hne : (card'.userId != uid) = true := by
      simp [heq, hown]
    refine ⟨?_, ?_, ?_⟩
    · simp [getMyCardByIdRes, hfind, hne]
    · simp [updateCard, hfind, hne]
    · simp [deleteCard, hfind, hne]
  · intro hnodup ch hmem hid hown
    have hnone : challenges.find?
        (fun c => c.id == id && c.userId == uid) = none := by
      rw [List.find?_eq_none]
      intro x hx hpx
      simp only [Bool.and_eq_true, beq_iff_eq] at hpx
      have heq : x = ch :=
        List.inj_on_of_nodup_map hnodup hx hmem (by rw [hpx.1, hid])
      exact hown (heq ▸ hpx.2)
    refine ⟨?_, ?_, ?_⟩
    · simp [getMyChallengeByIdRes, hnone]
    · simp [updateChallenge, hnone]
    · simp [deleteChallenge, hnone]
  · intro hnodup p hmem hid hown
    have hnone : ports.find?
        (fun q => q.id == id && q.userId == uid) = none := by
      rw [List.find?_eq_none]
      intro x hx hpx
      simp only [Bool.and_eq_true, beq_iff_eq] at hpx
      have heq : x = p :=
        List.inj_on_of_nodup_map hnodup hx hmem (by rw [hpx.1, hid])
      exact hown (heq ▸ hpx.2)
    refine ⟨?_, ?_, ?_⟩
    · simp [getMyPortfolioByIdRes, hnone]
    · simp [updatePortfolio, hnone]
    · simp [deletePortfolio, hnone]

/-- C6 witness: Bob's requests against Alice's card, challenge and
portfolio all come back NotFound with the store unchanged. -/
theorem C6_ownership_merged_into_notFound_witness :
    (getMyCardByIdRes [{ id := "r1", userId := "alice", slug := "s1" }]
        (some "bob") "r1" = .notFound
      ∧ updateCard [{ id := "r1", userId := "alice", slug := "s1" }]
          (some "bob") "r1" {} 3
        = (.notFound, [{ id := "r1", userId := "alice", slug := "s1" }])
      ∧ deleteCard [{ id := "r1", userId := "alice", slug := "s1" }]
          (some "bob") "r1"
        = (.notFound, [{ id := "r1", userId := "alice", slug := "s1" }]))
    ∧ (getMyChallengeByIdRes
        [{ id := "r1", userId := "alice", slug := "s1", title := "t" }]
        (some "bob") "r1" = .notFound)
    ∧ (getMyPortfolioByIdRes
        [{ id := "r1", userId := "alice", slug := "s1", title := "t" }]
        (some "bob") "r1" = .notFound) := by
  refine ⟨?_, ?_, ?_⟩
  · exact (C6_ownership_merged_into_notFound
      [{ id := "r1", userId := "alice", slug := "s1" }]
      [{ id := "r1", userId := "alice", slug := "s1", title := "t" }]
      [{ id := "r1", userId := "alice", slug := "s1", title := "t" }]
      "bob" "r1" {} {} {} 3).1 (by decide)
      { id := "r1", userId := "alice", slug := "s1" } (by decide) rfl
      (by decide)
  · exact ((C6_ownership_merged_into_notFound
      [{ id := "r1", userId := "alice", slug := "s1" }]
      [{ id := "r1", userId := "alice", slug := "s1", title := "t" }]
      [{ id := "r1", userId := "alice", slug := "s1", title := "t" }]
      "bob" "r1" {} {} {} 3).2.1 (by decide)
      { id := "r1", userId := "alice", slug := "s1", title := "t" }
      (by decide) rfl (by decide)).1
  · exact ((C6_ownership_merged_into_notFound
      [{ id := "r1", userId := "alice", slug := "s1" }]
      [{ id := "r1", userId := "alice", slug := "s1", title := "t" }]
      [{ id := "r1", userId := "alice", slug := "s1", title := "t" }]
      "bob" "r1" {} {} {} 3).2.2 (by decide)
      { id := "r1", userId := "alice", slug := "s1", title := "t" }
      (by decide) rfl (by decide)).1

/-- C3: the claim also asserts that a successful submission is only
possible for a caller who is not the challenge's owner; in the code there
is no owner check, and the owner of an OPEN, PUBLISHED challenge can
submit to it successfully. -/
theorem C3_counterexample :
    (createSubmission { challenges := [demoOpenChallenge] }
        (some "alice") "ch1" { subPlatform := "TIKTOK" } "s1").1 = .success
    ∧ ((({ challenges := [demoOpenChallenge] } : Db).challenges.find?
          (fun c => c.id == "ch1")).map (fun c => c.userId)) = some "alice" := by
  exact ⟨by decide, by decide⟩

/-- C3 (amended): submitting fails with NotFound when the challenge does
not exist, is not PUBLISHED, or is not OPEN; it fails with Conflict when
the caller already has a submission for the challenge; and success
requires an authenticated caller — but the challenge's owner is not
prevented from submitting to their own challenge. -/
theorem C3_submission_guards (db : Db) (uid : Option String) (cid : String)
    (input : SubmitEntryInput) (newId : String) :
    ((createSubmission db uid cid input newId).1 = .success →
        uid.isSome = true)
    ∧ (∀ u, uid = some u →
        db.challenges.find? (fun c => c.id == cid) = none →
        createSubmission db uid cid input newId = (.notFound, db))
    ∧ (∀ u c, uid = some u →
        db.challenges.find? (fun c => c.id == cid) = some c →
        (c.publishStatus ≠ .PUBLISHED ∨ c.chStatus ≠ "OPEN") →
        createSubmission db uid cid input newId = (.notFound, db))
    ∧ (∀ u c, uid = some u →
        db.challenges.find? (fun c => c.id == cid) = some c →
        c.publishStatus = .PUBLISHED → c.chStatus = "OPEN" →
        (∃ s ∈ db.submissions, s.challengeId = cid ∧ s.submitterId = u) →
        createSubmission db uid cid input newId = (.conflict, db)) := by
  refine ⟨?_, ?_, ?_, ?_⟩
  · intro h
    match uid with
    | none => simp [createSubmission] at h
    | some u => rfl
  · intro u hu hnone
    subst hu
    simp [createSubmission, hnone]
  · intro u c hu hfind hbad
    subst hu
    have hguard : (c.publishStatus != .PUBLISHED || c.chStatus != "OPEN")
        = true := by
      rcases hbad with h | h <;> simp [h]
    simp [createSubmission, hfind, hguard]
  · intro u c hu hfind hpub hopen hex
    subst hu
    have hguard : (c.publishStatus != .PUBLISHED || c.chStatus != "OPEN")
        = false := by
      simp [hpub, hopen]
    have hdup : (db.submissions.find?
        (fun s => s.challengeId == cid && s.submitterId == u)).isSome
        = true := by
      rw [List.find?_isSome]
      obtain ⟨s, hs, h1, h2⟩ := hex
      exact ⟨s, hs, by simp [h1, h2]⟩
    simp [createSubmission, hfind, hguard, hdup]

/-- C3 witness: the failure modes and the authenticated-success fact at
concrete stores. -/
theorem C3_submission_guards_witness :
    createSubmission { challenges := [] } (some "bob") "nope"
        { subPlatform := "X" } "s1"
      = (.notFound, { challenges := [] })
    ∧ createSubmission { challenges := [demoDraftChallenge] }
        (some "bob") "ch1" { subPlatform := "X" } "s1"
      = (.notFound, { challenges := [demoDraftChallenge] })
    ∧ createSubmission
        { challenges := [demoOpenChallenge],
          submissions := [demoSubmission] }
        (some "bob") "ch1" { subPlatform := "X" } "s1"
      = (.conflict,
        { challenges := [demoOpenChallenge],
          submissions := [demoSubmission] })
    ∧ (some "bob" : Option String).isSome = true := by
  refine ⟨?_, ?_, ?_, ?_⟩
  · exact (C3_submission_guards { challenges := [] } (some "bob") "nope"
      { subPlatform := "X" } "s1").2.1 "bob" rfl (by decide)
  · exact (C3_submission_guards { challenges := [demoDraftChallenge] }
      (some "bob") "ch1" { subPlatform := "X" } "s1").2.2.1 "bob"
      demoDraftChallenge rfl (by decide) (Or.inl (by decide))
  · exact (C3_submission_guards
      { challenges := [demoOpenChallenge], submissions := [demoSubmission] }
      (some "bob") "ch1" { subPlatform := "X" } "s1").2.2.2 "bob"
      demoOpenChallenge rfl (by decide) rfl rfl
      ⟨demoSubmission, by decide, rfl, rfl⟩
  · exact (C3_submission_guards { challenges := [demoOpenChallenge] }
      (some "bob") "ch1" { subPlatform := "X" } "s1").1 (by decide)

/-! ## Billing helper lemmas -/

theorem find?_map_proj {α β : Type} (l : List α) (f : α → α) (p : α → Bool)
    (g : α → β) (hp : ∀ a, p (f a) = p a) (hg : ∀ a, g (f a) = g a) :
    ((l.map f).find? p).map g = (l.find? p).map g := by
  rw [List.find?_map]
  have h1 : (p ∘ f) = p := funext hp
  rw [h1, Option.map_map]
  have h2 : (g ∘ f) = g := funext hg
  rw [h2]

theorem resolveAppUserId_stable (users : List User) (uid : String)
    (plan : Option String) (st : String) (pe : Nat) (callerId : String)
    (sess : CheckoutSession) (sub : StripeSubscription) :
    resolveAppUserId (updateUserBilling users uid plan st pe) callerId sess sub
      = resolveAppUserId users callerId sess sub := by
  unfold resolveAppUserId updateUserBilling
  cases hc : sub.customer with
  | none => rfl
  | some cust =>
      simp only [hc]
      rw [find?_map_proj]
      · intro a
        by_cases h : a.id == uid <;> simp [h]
      · intro a
        by_cases h : a.id == uid <;> simp [h]

theorem updateUserBilling_any_id (users : List User) (uid : String)
    (plan : Option String) (st : String) (pe : Nat) (x : String) :
    (updateUserBilling users uid plan st pe).any (fun u => u.id == x)
      = users.any (fun u => u.id == x) := by
  unfold updateUserBilling
  rw [List.any_map]
  congr 1
  funext u
  by_cases h : u.id == uid <;> simp [Function.comp, h]

theorem updateUserBilling_idem (users : List User) (uid : String)
    (plan : Option String) (st : String) (pe : Nat) :
    updateUserBilling (updateUserBilling users uid plan st pe) uid plan st pe
      = updateUserBilling users uid plan st pe := by
  unfold updateUserBilling
  rw [List.map_map]
  apply List.map_congr_left
  intro u _
  by_cases h : u.id == uid
  · cases plan <;> simp [Function.comp, h]
  · simp [Function.comp, h]

theorem upsertSubscription_idem (subs : List SubscriptionRow)
    (row : SubscriptionRow) :
    upsertSubscription (upsertSubscription subs row) row
      = upsertSubscription subs row := by
  unfold upsertSubscription
  by_cases hany : subs.any (fun r => r.stripeSubId == row.stripeSubId) = true
  · rw [if_pos hany]
    have h2 : ((subs.map (fun r =>
        if r.stripeSubId == row.stripeSubId then
          { r with
              stripePriceId := row.stripePriceId
              subStatus := row.subStatus
              currentPeriodEnd := row.currentPeriodEnd }
        else r)).any (fun r => r.stripeSubId == row.stripeSubId)) = true := by
      rw [List.any_map]
      have : ((fun r : SubscriptionRow => r.stripeSubId == row.stripeSubId) ∘
          (fun r : SubscriptionRow =>
            if r.stripeSubId == row.stripeSubId then
              { r with
                  stripePriceId := row.stripePriceId
                  subStatus := row.subStatus
                  currentPeriodEnd := row.currentPeriodEnd }
            else r))
          = fun r : SubscriptionRow => r.stripeSubId == row.stripeSubId := by
        funext r
        by_cases h : r.stripeSubId == row.stripeSubId <;>
          simp [Function.comp, h]
      rw [this]
      exact hany
    rw [if_pos h2, List.map_map]
    apply List.map_congr_left
    intro r _
    by_cases h : r.stripeSubId == row.stripeSubId <;> simp [Function.comp, h]
  · rw [if_neg hany]
    have hall := List.any_eq_false.mp (Bool.eq_false_iff.mpr hany)
    have h2 : ((subs ++ [row]).any
        (fun r => r.stripeSubId == row.stripeSubId)) = true := by
      rw [List.any_append]
      simp
    rw [if_pos h2, List.map_append]
    have h3 : subs.map (fun r =>
        if r.stripeSubId == row.stripeSubId then
          { r with
              stripePriceId := row.stripePriceId
              subStatus := row.subStatus
              currentPeriodEnd := row.currentPeriodEnd }
        else r) = subs := by
      have h4 := List.map_congr_left (l := subs)
        (f := fun r : SubscriptionRow =>
          if r.stripeSubId == row.stripeSubId then
            { r with
                stripePriceId := row.stripePriceId
                subStatus := row.subStatus
                currentPeriodEnd := row.currentPeriodEnd }
          else r)
        (g := fun r : SubscriptionRow => r)
        (fun r hr => by
          have := hall r hr
          simp only [Bool.not_eq_true] at this
          simp [this])
      rw [h4, List.map_id']
    rw [h3]
    simp

theorem upsertSubscription_count (subs : List SubscriptionRow)
    (row : SubscriptionRow)
    (h : (subs.map (fun r => r.stripeSubId)).Nodup) :
    ((upsertSubscription subs row).filter
        (fun r => r.stripeSubId == row.stripeSubId)).length = 1 := by
  rw [← List.countP_eq_length_filter]
  unfold upsertSubscription
  by_cases hany : subs.any (fun r => r.stripeSubId == row.stripeSubId) = true
  · rw [if_pos hany]
    rw [List.countP_map]
    have hcomp : ((fun r : SubscriptionRow => r.stripeSubId == row.stripeSubId) ∘
        (fun r : SubscriptionRow =>
          if r.stripeSubId == row.stripeSubId then
            { r with
                stripePriceId := row.stripePriceId
                subStatus := row.subStatus
                currentPeriodEnd := row.currentPeriodEnd }
          else r))
        = fun r : SubscriptionRow => r.stripeSubId == row.stripeSubId := by
      funext r
      by_cases hr : r.stripeSubId == row.stripeSubId <;>
        simp [Function.comp, hr]
    rw [hcomp]
    have hkey : List.countP
        (fun r : SubscriptionRow => r.stripeSubId == row.stripeSubId) subs
        = List.count row.stripeSubId (subs.map (fun r => r.stripeSubId)) := by
      rw [List.count, List.countP_map]
      rfl
    rw [hkey]
    have hle := List.nodup_iff_count_le_one.mp h row.stripeSubId
    have hmem : row.stripeSubId ∈ subs.map (fun r => r.stripeSubId) := by
      obtain ⟨r, hr, hpr⟩ := List.any_eq_true.mp hany
      exact List.mem_map.mpr ⟨r, hr, by simpa using hpr⟩
    have hpos := List.count_pos_iff.mpr hmem
    omega
  · rw [if_neg hany]
    have hall := List.any_eq_false.mp (Bool.eq_false_iff.mpr hany)
    rw [List.countP_append]
    have h0 : List.countP
        (fun r : SubscriptionRow => r.stripeSubId == row.stripeSubId) subs
        = 0 := by
      rw [List.countP_eq_zero]
      exact hall
    rw [h0]
    simp [List.countP_cons]

theorem finalizeSubPersist_idem (env : BillingEnv) (callerId : String)
    (sess : CheckoutSession) (sub : StripeSubscription) (db : Db) :
    (finalizeSubPersist env callerId sess sub
        (finalizeSubPersist env callerId sess sub db).2).2
      = (finalizeSubPersist env callerId sess sub db).2 := by
  simp only [finalizeSubPersist]
  by_cases hany : db.users.any
      (fun u => u.id == resolveAppUserId db.users callerId sess sub) = true
  · rw [if_pos hany]
    have hA := resolveAppUserId_stable db.users
      (resolveAppUserId db.users callerId sess sub) (resolvePlan env sess sub)
      sub.subStatus (sub.currentPeriodEndSec * 1000) callerId sess sub
    simp only [hA]
    rw [if_pos (by rw [updateUserBilling_any_id]; exact hany)]
    rw [upsertSubscription_idem, updateUserBilling_idem]
  · rw [if_neg hany]
    rw [if_neg hany]
    rw [upsertSubscription_idem]

/-- C5: `finalizeFromCheckout` is idempotent — running it a second time
with the same checkout session leaves the whole store exactly as after
the first run (in particular the owner's plan, subscription status and
current-period-end are unchanged), and when a subscription object is
attached the store holds exactly one subscription row keyed by that
external subscription id. -/
theorem C5_finalize_idempotent (env : BillingEnv)
    (caller sessionId : Option String) (sess : CheckoutSession) (db : Db) :
    (finalizeFromCheckout env caller sessionId sess
        (finalizeFromCheckout env caller sessionId sess db).2).2
      = (finalizeFromCheckout env caller sessionId sess db).2
    ∧ (finalizeFromCheckout env caller sessionId sess
        (finalizeFromCheckout env caller sessionId sess db).2).2.users
      = (finalizeFromCheckout env caller sessionId sess db).2.users
    ∧ (∀ sub, sess.subscription = some (.obj sub) →
        (db.subscriptions.map (fun r => r.stripeSubId)).Nodup →
        ∀ cid, caller = some cid →
        jsTruthy (sessionId.map (fun s => jsTrim s)) = true →
        ((finalizeFromCheckout env caller sessionId sess
            db).2.subscriptions.filter
          (fun r => r.stripeSubId == sub.id)).length = 1) := by
  have hmain : (finalizeFromCheckout env caller sessionId sess
      (finalizeFromCheckout env caller sessionId sess db).2).2
      = (finalizeFromCheckout env caller sessionId sess db).2 := by
    cases caller with
    | none => simp [finalizeFromCheckout]
    | some cid =>
        by_cases hsid : jsTruthy (sessionId.map (fun s => jsTrim s)) = true
        · cases hsub : sess.subscription with
          | none => simp [finalizeFromCheckout, hsid, hsub]
          | some s =>
              cases s with
              | ref r => simp [finalizeFromCheckout, hsid, hsub]
              | obj sub =>
                  simp only [finalizeFromCheckout, hsid, hsub,
                    Bool.not_true, Bool.false_eq_true, if_false]
                  exact finalizeSubPersist_idem env cid sess sub db
        · have hsid' : jsTruthy (sessionId.map (fun s => jsTrim s)) = false :=
            Bool.eq_false_iff.mpr hsid
          simp [finalizeFromCheckout, hsid']
  refine ⟨hmain, congrArg Db.users hmain, ?_⟩
  intro sub hsub hnodup cid hc hsid
  subst hc
  simp only [finalizeFromCheckout, hsid, hsub, Bool.not_true,
    Bool.false_eq_true, if_false, finalizeSubPersist]
  split
  · exact upsertSubscription_count db.subscriptions
      { stripeSubId := sub.id
        userId := resolveAppUserId db.users cid sess sub
        stripePriceId :=
          ((sub.items.head?.bind (fun i => i.price)).map (fun p => p.id)).getD ""
        subStatus := sub.subStatus
        currentPeriodEnd := sub.currentPeriodEndSec * 1000 } hnodup
  · exact upsertSubscription_count db.subscriptions
      { stripeSubId := sub.id
        userId := resolveAppUserId db.users cid sess sub
        stripePriceId :=
          ((sub.items.head?.bind (fun i => i.price)).map (fun p => p.id)).getD ""
        subStatus := sub.subStatus
        currentPeriodEnd := sub.currentPeriodEndSec * 1000 } hnodup

/-- C5 witness: a concrete checkout finalization run twice — one
subscription row for the external id, identical stores after the first
and second run. -/
theorem C5_finalize_idempotent_witness :
    (((finalizeFromCheckout ⟨"pB", "pP", "pU"⟩ (some "u1") (some "cs_1")
        { subscription := some (.obj
            { id := "sub1", subStatus := "active",
              metadataAppUserId := some "u1", currentPeriodEndSec := 7 }) }
        { users := [{ id := "u1", clerkId := "ck1" }] }).2.subscriptions.filter
      (fun r => r.stripeSubId == "sub1")).length = 1)
    ∧ (finalizeFromCheckout ⟨"pB", "pP", "pU"⟩ (some "u1") (some "cs_1")
        { subscription := some (.obj
            { id := "sub1", subStatus := "active",
              metadataAppUserId := some "u1", currentPeriodEndSec := 7 }) }
        (finalizeFromCheckout ⟨"pB", "pP", "pU"⟩ (some "u1") (some "cs_1")
          { subscription := some (.obj
              { id := "sub1", subStatus := "active",
                metadataAppUserId := some "u1", currentPeriodEndSec := 7 }) }
          { users := [{ id := "u1", clerkId := "ck1" }] }).2).2
      = (finalizeFromCheckout ⟨"pB", "pP", "pU"⟩ (some "u1") (some "cs_1")
          { subscription := some (.obj
              { id := "sub1", subStatus := "active",
                metadataAppUserId := some "u1", currentPeriodEndSec := 7 }) }
          { users := [{ id := "u1", clerkId := "ck1" }] }).2 := by
  constructor
  · exact (C5_finalize_idempotent ⟨"pB", "pP", "pU"⟩ (some "u1") (some "cs_1")
      { subscription := some (.obj
          { id := "sub1", subStatus := "active",
            metadataAppUserId := some "u1", currentPeriodEndSec := 7 }) }
      { users := [{ id := "u1", clerkId := "ck1" }] }).2.2
      { id := "sub1", subStatus := "active", metadataAppUserId := some "u1",
        currentPeriodEndSec := 7 }
      rfl (by decide) "u1" rfl (by decide)
  · exact (C5_finalize_idempotent ⟨"pB", "pP", "pU"⟩ (some "u1") (some "cs_1")
      { subscription := some (.obj
          { id := "sub1", subStatus := "active",
            metadataAppUserId := some "u1", currentPeriodEndSec := 7 }) }
      { users := [{ id := "u1", clerkId := "ck1" }] }).1

/-! ## Submission-order helper lemmas -/

/-- The counter bump preserves the challenge id. -/
theorem challengeBump_id (cid : String) (x : Challenge) :
    (bumpChallenge cid x).id = x.id := by
  unfold bumpChallenge
  by_cases h : x.id == cid <;> simp [h]

/-- `createSubmission` either leaves the store untouched (failure) or
succeeds with the recorded shape: the matched challenge's counter bumped
and the new row appended. -/
theorem createSubmission_cases (db : Db) (uid : String) (cid : String)
    (input : SubmitEntryInput) (newId : String) :
    ((createSubmission db (some uid) cid input newId).1 ≠ .success
      ∧ (createSubmission db (some uid) cid input newId).2 = db)
    ∨ ∃ c, db.challenges.find? (fun x => x.id == cid) = some c
        ∧ (createSubmission db (some uid) cid input newId).1 = .success
        ∧ (createSubmission db (some uid) cid input newId).2
          = { db with
              challenges := db.challenges.map (bumpChallenge cid)
              submissions :=
                db.submissions ++ [newSubmissionRow db uid cid input newId c] } := by
  cases hfind : db.challenges.find? (fun x => x.id == cid) with
  | none =>
      refine Or.inl ⟨?_, ?_⟩ <;> simp [createSubmission, hfind]
  | some c =>
      by_cases hguard : (c.publishStatus != .PUBLISHED
          || c.chStatus != "OPEN") = true
      · refine Or.inl ⟨?_, ?_⟩ <;> simp [createSubmission, hfind, hguard]
      · by_cases hdup : (db.submissions.find?
            (fun s => s.challengeId == cid && s.submitterId == uid)).isSome
            = true
        · refine Or.inl ⟨?_, ?_⟩ <;>
            simp [createSubmission, hfind, hguard, hdup]
        · refine Or.inr ⟨c, rfl, ?_, ?_⟩ <;>
            simp [createSubmission, hfind, hguard, hdup]

/-- The order carried by the inserted row is the pre-increment counter. -/
theorem newSubmissionRow_order (db : Db) (uid cid : String)
    (input : SubmitEntryInput) (newId : String) (c : Challenge) :
    (newSubmissionRow db uid cid input newId c).submissionOrder
      = c.nextSubmissionOrder
    ∧ (newSubmissionRow db uid cid input newId c).challengeId = cid := by
  constructor
  · simp [newSubmissionRow]
  · rfl

/-- `find?` by id over the bumped challenge table. -/
theorem find?_challenges_bump (challenges : List Challenge) (cid x : String) :
    (challenges.map (bumpChallenge cid)).find? (fun c => c.id == x)
      = (challenges.find? (fun c => c.id == x)).map (bumpChallenge cid) := by
  rw [List.find?_map]
  have hp : ((fun c : Challenge => c.id == x) ∘ bumpChallenge cid)
      = fun c : Challenge => c.id == x := by
    funext c
    simp only [Function.comp]
    rw [challengeBump_id]
  rw [hp]

/-- Filtering preserves the orders invariant (withdrawal is a filter on
the submissions table). -/
theorem ordersInv_filter (db : Db) (hinv : OrdersInv db)
    (p : SubmissionRow → Bool) :
    OrdersInv { db with submissions := db.submissions.filter p } := by
  intro c hc
  obtain ⟨hlt, hnodup⟩ := hinv c hc
  have hsub : (subsOf { db with submissions := db.submissions.filter p } c.id).Sublist
      (subsOf db c.id) := by
    unfold subsOf
    exact List.Sublist.filter _ (List.filter_sublist db.submissions)
  constructor
  · intro s hs
    exact hlt s (hsub.subset hs)
  · exact List.Nodup.sublist (hsub.map (fun s => s.submissionOrder)) hnodup

/-- The submissions of a challenge after the success-shape write. -/
theorem subsOf_success_shape (db : Db) (X : List Challenge)
    (row : SubmissionRow) (y : String) :
    subsOf { db with
        challenges := X
        submissions := db.submissions ++ [row] } y
      = subsOf db y ++ (if row.challengeId == y then [row] else []) := by
  unfold subsOf
  rw [List.filter_append]
  congr 1
  simp [List.filter_cons]

/-- The orders invariant survives a successful submit: the new row
carries the pre-increment counter of the matched challenge, which
exceeds every existing order of that challenge. -/
theorem ordersInv_after_submit (db : Db)
    (hwf : (db.challenges.map (fun c => c.id)).Nodup)
    (hinv : OrdersInv db) (cid : String) (c : Challenge)
    (hfind : db.challenges.find? (fun x => x.id == cid) = some c)
    (row : SubmissionRow) (hrc : row.challengeId = cid)
    (horder : row.submissionOrder = c.nextSubmissionOrder) :
    OrdersInv { db with
        challenges := db.challenges.map (bumpChallenge cid)
        submissions := db.submissions ++ [row] } := by
  intro c' hc'
  rw [List.mem_map] at hc'
  obtain ⟨x, hx, rfl⟩ := hc'
  have hcid : c.id = cid := by simpa using List.find?_some hfind
  have hcmem := List.mem_of_find?_eq_some hfind
  rw [subsOf_success_shape]
  by_cases hxid : (x.id == cid) = true
  · have hxid' : x.id = cid := by rwa [beq_iff_eq] at hxid
    have hxc : x = c := List.inj_on_of_nodup_map hwf hx hcmem
      (by rw [hxid', hcid])
    subst hxc
    obtain ⟨hlt, hnodup⟩ := hinv x hx
    have hbid : (bumpChallenge cid x).id = x.id := challengeBump_id cid x
    have hcnt : (bumpChallenge cid x).nextSubmissionOrder
        = x.nextSubmissionOrder + 1 := by
      unfold bumpChallenge
      rw [if_pos hxid]
    have hite : (if row.challengeId == (bumpChallenge cid x).id then
        [row] else ([] : List SubmissionRow)) = [row] := by
      simp [hbid, hrc, hxid']
    rw [hite, hbid, hcnt]
    constructor
    · intro s hs
      rw [List.mem_append] at hs
      rcases hs with hs | hs
      · have := hlt s hs
        omega
      · rw [List.mem_singleton] at hs
        subst hs
        rw [horder]
        omega
    · rw [List.map_append, List.nodup_append]
      refine ⟨hnodup, by simp, ?_⟩
      intro a ha
      rw [List.mem_map] at ha
      obtain ⟨s, hs, rfl⟩ := ha
      have := hlt s hs
      simp only [List.map_cons, List.map_nil, List.mem_singleton, horder]
      omega
  · have hbc : bumpChallenge cid x = x := by
      unfold bumpChallenge
      rw [if_neg hxid]
    have hxne : row.challengeId ≠ x.id := by
      rw [hrc]
      intro hcx
      exact hxid (by rw [beq_iff_eq, hcx])
    rw [hbc]
    have hite : (if row.challengeId == x.id then [row]
        else ([] : List SubmissionRow)) = [] := by
      simp [hxne]
    rw [hite]
    simpa using hinv x hx

/-- Primary-key well-formedness survives the success-shape write. -/
theorem dbwf_after_submit (db : Db) (hwf : DbWf db) (cid : String)
    (row : SubmissionRow) :
    DbWf { db with
        challenges := db.challenges.map (bumpChallenge cid)
        submissions := db.submissions ++ [row] } := by
  obtain ⟨h1, h2, h3⟩ := hwf
  refine ⟨?_, h2, h3⟩
  rw [List.map_map]
  have : ((fun c : Challenge => c.id) ∘ bumpChallenge cid)
      = fun c : Challenge => c.id := by
    funext c
    simp only [Function.comp]
    exact challengeBump_id cid c
  rw [this]
  exact h1

/-- Counters never decrease across the success-shape write. -/
theorem counterOf_bump_le (db : Db) (cid : String) (S : List SubmissionRow)
    (x : String) :
    counterOf db x
      ≤ counterOf { db with
          challenges := db.challenges.map (bumpChallenge cid)
          submissions := S } x := by
  unfold counterOf
  rw [find?_challenges_bump]
  cases db.challenges.find? (fun c => c.id == x) with
  | none => exact Nat.le_refl 0
  | some c =>
      simp only [Option.map_some']
      by_cases h : (c.id == cid) = true
      · have hcnt : (bumpChallenge cid c).nextSubmissionOrder
            = c.nextSubmissionOrder + 1 := by
          unfold bumpChallenge
          rw [if_pos h]
        rw [hcnt]
        exact Nat.le_succ _
      · have hcnt : bumpChallenge cid c = c := by
          unfold bumpChallenge
          rw [if_neg h]
        rw [hcnt]

/-- `withdrawMySubmission` either leaves the store untouched or filters
the submissions table by a row id; the challenge table is untouched. -/
theorem withdraw_cases (db : Db) (uid : String) (cid : String) :
    (withdrawMySubmission db (some uid) cid).2 = db
    ∨ ∃ ex : SubmissionRow, (withdrawMySubmission db (some uid) cid).2
        = { db with
            submissions := db.submissions.filter (fun s => s.id != ex.id) } := by
  cases hfind : db.submissions.find?
      (fun s => s.challengeId == cid && s.submitterId == uid) with
  | none =>
      refine Or.inl ?_
      simp [withdrawMySubmission, hfind]
  | some ex =>
      refine Or.inr ⟨ex, ?_⟩
      simp [withdrawMySubmission, hfind]

/-- One submission-subsystem step preserves well-formedness and the
orders invariant, and never decreases any challenge counter. -/
theorem subStep_preserves (d d' : Db) (h : SubStep d d')
    (hwf : DbWf d) (hinv : OrdersInv d) :
    DbWf d' ∧ OrdersInv d' ∧ ∀ x, counterOf d x ≤ counterOf d' x := by
  cases h with
  | submit uid cid input newId =>
      cases uid with
      | none => exact ⟨hwf, hinv, fun x => Nat.le_refl _⟩
      | some u =>
          rcases createSubmission_cases d u cid input newId with
            ⟨_, heq⟩ | ⟨c, hfind, _, heq⟩
          · rw [heq]
            exact ⟨hwf, hinv, fun x => Nat.le_refl _⟩
          · rw [heq]
            refine ⟨dbwf_after_submit d hwf cid _, ?_, ?_⟩
            · exact ordersInv_after_submit d hwf.1 hinv cid c hfind _
                (newSubmissionRow_order d u cid input newId c).2
                (newSubmissionRow_order d u cid input newId c).1
            · intro x
              exact counterOf_bump_le d cid _ x
  | withdraw uid cid =>
      cases uid with
      | none => exact ⟨hwf, hinv, fun x => Nat.le_refl _⟩
      | some u =>
          rcases withdraw_cases d u cid with heq | ⟨ex, heq⟩
          · rw [heq]
            exact ⟨hwf, hinv, fun x => Nat.le_refl _⟩
          · rw [heq]
            exact ⟨⟨hwf.1, hwf.2.1, hwf.2.2⟩, ordersInv_filter d hinv _,
              fun x => Nat.le_refl _⟩

/-- Reachability preserves well-formedness and the invariant, and
counters are monotone along any run of submits and withdrawals. -/
theorem reachSub_preserves (d d₂ : Db) (h : ReachSub d d₂)
    (hwf : DbWf d) (hinv : OrdersInv d) :
    DbWf d₂ ∧ OrdersInv d₂ ∧ ∀ x, counterOf d x ≤ counterOf d₂ x := by
  induction h with
  | refl => exact ⟨hwf, hinv, fun x => Nat.le_refl _⟩
  | tail hsteps hstep ih =>
      obtain ⟨hwf', hinv', hmono⟩ := ih
      obtain ⟨hwf'', hinv'', hmono'⟩ := subStep_preserves _ _ hstep hwf' hinv'
      exact ⟨hwf'', hinv'', fun x => Nat.le_trans (hmono x) (hmono' x)⟩

/-- C4: a successful submission takes its `submissionOrder` from the
per-challenge counter (the pre-increment value) in the same atomic step
as the insert, so the new order strictly exceeds every existing order of
that challenge (hence no two submissions ever share an order and orders
strictly increase in creation order); withdrawals never touch the
counter; and along any run of submits and withdrawals the counter is
monotone, so the order of a submission that was present (and possibly
later withdrawn) is never reassigned to a new submission. -/
theorem C4_submission_order (db : Db) (hwf : DbWf db) (hinv : OrdersInv db) :
    (∀ uid cid input newId r db',
        createSubmission db (some uid) cid input newId = (r, db') →
        DbWf db' ∧ OrdersInv db'
        ∧ (r = .success →
            ∃ row, db'.submissions = db.submissions ++ [row]
              ∧ row.challengeId = cid
              ∧ row.submissionOrder = counterOf db cid
              ∧ ∀ s ∈ subsOf db cid,
                  s.submissionOrder < row.submissionOrder))
    ∧ (∀ uid cid r db',
        withdrawMySubmission db (some uid) cid = (r, db') →
        DbWf db' ∧ OrdersInv db' ∧ db'.challenges = db.challenges)
    ∧ (∀ db₂, ReachSub db db₂ →
        DbWf db₂ ∧ OrdersInv db₂
        ∧ ∀ cid, counterOf db cid ≤ counterOf db₂ cid)
    ∧ (∀ db₂ uid cid input newId s0 c0,
        ReachSub db db₂ →
        db.challenges.find? (fun c => c.id == cid) = some c0 →
        s0 ∈ subsOf db cid →
        (createSubmission db₂ (some uid) cid input newId).1 = .success →
        ∃ row,
          (createSubmission db₂ (some uid) cid input newId).2.submissions
            = db₂.submissions ++ [row]
          ∧ s0.submissionOrder < row.submissionOrder) := by
  refine ⟨?_, ?_, ?_, ?_⟩
  · intro uid cid input newId r db' heq
    have hfst := congrArg Prod.fst heq
    have hsnd := congrArg Prod.snd heq
    rcases createSubmission_cases db uid cid input newId with
      ⟨hne, h2⟩ | ⟨c, hfind, h1, h2⟩
    · rw [h2] at hsnd
      subst hsnd
      refine ⟨hwf, hinv, ?_⟩
      intro hr
      exact absurd (hfst.trans hr) hne
    · rw [h2] at hsnd
      subst hsnd
      have hrow := newSubmissionRow_order db uid cid input newId c
      refine ⟨dbwf_after_submit db hwf cid _,
        ordersInv_after_submit db hwf.1 hinv cid c hfind _ hrow.2 hrow.1, ?_⟩
      intro _
      refine ⟨newSubmissionRow db uid cid input newId c, rfl, hrow.2, ?_, ?_⟩
      · have hcnt : counterOf db cid = c.nextSubmissionOrder := by
          unfold counterOf
          rw [hfind]
        rw [hcnt, hrow.1]
      · have hcid : c.id = cid := by simpa using List.find?_some hfind
        intro s hs
        rw [hrow.1]
        apply (hinv c (List.mem_of_find?_eq_some hfind)).1
        rw [hcid]
        exact hs
  · intro uid cid r db' heq
    have hsnd := congrArg Prod.snd heq
    rcases withdraw_cases db uid cid with h2 | ⟨ex, h2⟩
    · rw [h2] at hsnd
      subst hsnd
      exact ⟨hwf, hinv, rfl⟩
    · rw [h2] at hsnd
      subst hsnd
      exact ⟨⟨hwf.1, hwf.2.1, hwf.2.2⟩, ordersInv_filter db hinv _, rfl⟩
  · intro db₂ hreach
    exact reachSub_preserves db db₂ hreach hwf hinv
  · intro db₂ uid cid input newId s0 c0 hreach hfind0 hs0 hsucc
    obtain ⟨hwf₂, hinv₂, hmono⟩ := reachSub_preserves db db₂ hreach hwf hinv
    rcases createSubmission_cases db₂ uid cid input newId with
      ⟨hne, _⟩ | ⟨c₂, hfind₂, _, h2⟩
    · exact absurd hsucc hne
    · refine ⟨newSubmissionRow db₂ uid cid input newId c₂, by rw [h2], ?_⟩
      have hc0id : c0.id = cid := by simpa using List.find?_some hfind0
      have hs0lt : s0.submissionOrder < c0.nextSubmissionOrder := by
        apply (hinv c0 (List.mem_of_find?_eq_some hfind0)).1
        rw [hc0id]
        exact hs0
      have hcnt0 : counterOf db cid = c0.nextSubmissionOrder := by
        unfold counterOf
        rw [hfind0]
      have hcnt₂ : counterOf db₂ cid = c₂.nextSubmissionOrder := by
        unfold counterOf
        rw [hfind₂]
      have horder := (newSubmissionRow_order db₂ uid cid input newId c₂).1
      have hm := hmono cid
      omega

/-- C4 witness: in a store holding one OPEN published challenge with
counter 0, a successful submit appends one row with order 0, strictly
above all (none) existing orders, and the invariants persist. -/
theorem C4_submission_order_witness :
    OrdersInv (createSubmission { challenges := [demoOpenChallenge] }
        (some "bob") "ch1" { subPlatform := "X" } "s1").2
    ∧ ∃ row,
        (createSubmission { challenges := [demoOpenChallenge] }
            (some "bob") "ch1" { subPlatform := "X" } "s1").2.submissions
          = ({ challenges := [demoOpenChallenge] } : Db).submissions ++ [row]
        ∧ row.challengeId = "ch1"
        ∧ row.submissionOrder
          = counterOf { challenges := [demoOpenChallenge] } "ch1"
        ∧ ∀ s ∈ subsOf { challenges := [demoOpenChallenge] } "ch1",
            s.submissionOrder < row.submissionOrder := by
  have h := (C4_submission_order { challenges := [demoOpenChallenge] }
      (by decide) (by decide)).1 "bob" "ch1" { subPlatform := "X" } "s1"
      (createSubmission { challenges := [demoOpenChallenge] }
        (some "bob") "ch1" { subPlatform := "X" } "s1").1
      (createSubmission { challenges := [demoOpenChallenge] }
        (some "bob") "ch1" { subPlatform := "X" } "s1").2
      rfl
  exact ⟨h.2.1, h.2.2 (by decide)⟩

end Streakling
